import Mathlib

/-!
Verification of the RxSentinel multi-stage prescription pipeline
(`rx_sentinel_llm.py`).

The development is a shallow embedding of the pipeline core: the eleven
stage functions (`ocr_nlp_agent` … `final_review_agent`), the instance
ledgers (`self.alerts`, `self.audit_trail`), the shared `RxState` record
threaded through the stages, the orchestrator built by `create_workflow`,
and the `main` entry point.

Modelling conventions:
  * LLM/JSON values are modelled by the `Json` inductive with `Rat`
    numbers (floats in the source carry no float-specific behaviour in
    the properties considered).
  * A reasoning-engine call (`chain.invoke`) is an oracle response of
    type `Except String Json`: `.error e` is a transport failure or a
    malformed (unparseable) response with exception text `e`, `.ok j`
    is a parsed JSON value.  Each stage performs exactly one call, so a
    whole run consumes `oracle : Nat → Except String Json`, the i-th
    stage reading `oracle i`.
  * Python runtime failures inside a stage's `try` block (AttributeError
    from `.get` on a non-dict, KeyError/TypeError from subscripting,
    TypeError from `len`/iteration) are modelled by `Except String`
    results of the helper functions below, mirroring where the source
    can raise; the exception text is abbreviated (claims depend only on
    it being non-empty).
  * `datetime.now().isoformat()` is modelled by a timestamp source
    `ts : Nat → String` sampled at an increasing clock; string
    formatting of JSON values (`json.dumps`, `str`) is modelled by the
    compact serializer `jdump` (indentation is not reproduced; no claim
    inspects formatted text).
  * The source file's indentation around stages 8 and 9
    (`compounding_compliance_agent`, `clinical_documentation_agent`,
    lines 837–1057) is damaged; both bodies are embedded from their
    written statements, with stage 8's failure handler taken from its
    verbatim twin at lines 1054–1057.
-/

/-- A parsed JSON value as produced by the reasoning engine. -/
inductive Json where
  | null : Json
  | bool : Bool → Json
  | num : Rat → Json
  | str : String → Json
  | arr : List Json → Json
  | obj : List (String × Json) → Json

/-- First binding of a key in an association list (Python dicts have unique keys). -/
def jlookup : List (String × Json) → String → Option Json
  | [], _ => none
  | (k, v) :: rest, key => if k = key then some v else jlookup rest key

/-- Python `d.get(key, default)`: AttributeError when `d` is not a dict. -/
def dictGet (j : Json) (key : String) (dflt : Json) : Except String Json :=
  match j with
  | .obj kvs => .ok ((jlookup kvs key).getD dflt)
  | _ => .error "AttributeError: object has no attribute get"

/-- Python `d[key]`: KeyError when absent, TypeError when `d` is not a dict. -/
def dictItem (j : Json) (key : String) : Except String Json :=
  match j with
  | .obj kvs =>
    match jlookup kvs key with
    | some v => .ok v
    | none => .error ("KeyError: " ++ key)
  | _ => .error "TypeError: object is not subscriptable"

/-- Python `d.setdefault(key, default)` on a dict (new keys are appended last). -/
def setdefault (j : Json) (key : String) (dflt : Json) : Json :=
  match j with
  | .obj kvs =>
    match jlookup kvs key with
    | some _ => .obj kvs
    | none => .obj (kvs ++ [(key, dflt)])
  | _ => j

/-- Python `len(x)`: TypeError on values without a length. -/
def pyLen : Json → Except String Nat
  | .arr xs => .ok xs.length
  | .str s => .ok s.length
  | .obj kvs => .ok kvs.length
  | _ => .error "TypeError: object has no len"

/-- Python `for x in j`: lists yield elements, dicts yield their keys,
strings yield one-character strings, everything else raises TypeError. -/
def pyIter : Json → Except String (List Json)
  | .arr xs => .ok xs
  | .obj kvs => .ok (kvs.map fun kv => Json.str kv.1)
  | .str s => .ok (s.data.map fun c => Json.str (String.singleton c))
  | _ => .error "TypeError: object is not iterable"

mutual

/-- Compact JSON serialization, standing in for `json.dumps`. -/
def jdump : Json → String
  | .null => "null"
  | .bool true => "true"
  | .bool false => "false"
  | .num q => toString q
  | .str s => "\"" ++ s ++ "\""
  | .arr xs => "[" ++ jdumpList xs ++ "]"
  | .obj kvs => "\x7b" ++ jdumpObj kvs ++ "\x7d"

/-- Serialize the elements of a JSON array. -/
def jdumpList : List Json → String
  | [] => ""
  | [x] => jdump x
  | x :: y :: rest => jdump x ++ ", " ++ jdumpList (y :: rest)

/-- Serialize the key/value pairs of a JSON object. -/
def jdumpObj : List (String × Json) → String
  | [] => ""
  | [(k, v)] => "\"" ++ k ++ "\": " ++ jdump v
  | (k, v) :: kv :: rest => "\"" ++ k ++ "\": " ++ jdump v ++ ", " ++ jdumpObj (kv :: rest)

end

/-- Python `str(x)` as used inside f-strings (strings print bare). -/
def pyStr : Json → String
  | .str s => s
  | j => jdump j

/-- The `{"error": str(e)}` record every mid-pipeline failure handler stores. -/
def errObj (e : String) : Json := Json.obj [("error", Json.str e)]

/-- One record of the Alert Ledger (`_add_alert` payload).  Field values
coming from engine-embedded alerts are stored verbatim, hence `Json`. -/
structure Alert where
  type_ : Json
  category : String
  message : Json
  severity : Json
  requires_human_review : Bool
  timestamp : String

/-- One record of the Audit Ledger (`_add_audit_entry` payload). -/
structure AuditEntry where
  agent : String
  action : String
  timestamp : String
  data : Json

/-- The mutable instance state of `RxSentinelAgents`: the two
instance-lifetime ledgers plus the clock indexing `datetime.now()` calls. -/
structure RxSentinelAgents where
  alerts : List Alert
  audit_trail : List AuditEntry
  clock : Nat

/-- A fresh `RxSentinelAgents` instance (`__init__` sets both ledgers empty). -/
def mkRxSentinelAgents : RxSentinelAgents := { alerts := [], audit_trail := [], clock := 0 }

/-- `reset_session`: clear both instance ledgers. -/
def reset_session (a : RxSentinelAgents) : RxSentinelAgents :=
  { a with alerts := [], audit_trail := [] }

/-- Role of a conversation-log entry. -/
inductive Role where
  | human : Role
  | ai : Role

/-- One conversation-log entry (`HumanMessage` / `AIMessage`). -/
structure Message where
  role : Role
  content : String

/-- The shared pipeline state (`RxState` TypedDict).  `approval_status`
and `confidence_score` hold whatever the engine returned, hence `Json`.
`case_summary` is absent from the initial dict; absence is modelled by
`Json.null`. -/
structure RxState where
  image_data : Json
  document_type : String
  messages : List Message
  prescription_data : Json
  license_verification : Json
  dea_verification : Json
  state_compliance : Json
  controlled_substance_check : Json
  dosage_monitoring : Json
  bud_validation : Json
  compounding_compliance : Json
  clinical_documentation : Json
  case_summary : Json
  alerts : List Alert
  approval_status : Json
  audit_trail : List AuditEntry
  confidence_score : Json

/-- Agent instance plus pipeline state: everything a stage can touch. -/
structure Sys where
  agents : RxSentinelAgents
  state : RxState

/-- `_add_alert`: append one alert to the instance Alert Ledger. -/
def add_alert (ts : Nat → String) (alert_type : Json) (category : String)
    (message : Json) (severity : Json) (requires_review : Bool)
    (a : RxSentinelAgents) : RxSentinelAgents :=
  { a with
    alerts := a.alerts ++
      [{ type_ := alert_type, category := category, message := message,
         severity := severity, requires_human_review := requires_review,
         timestamp := ts a.clock }],
    clock := a.clock + 1 }

/-- `_add_audit_entry`: append one entry to the instance Audit Ledger. -/
def add_audit_entry (ts : Nat → String) (agent : String) (action : String)
    (data : Json) (a : RxSentinelAgents) : RxSentinelAgents :=
  { a with
    audit_trail := a.audit_trail ++
      [{ agent := agent, action := action, timestamp := ts a.clock, data := data }],
    clock := a.clock + 1 }

/-- The per-stage loop over engine-embedded alerts:
`for alert in result.get("alerts", []): self._add_alert(alert["type"], CAT,
alert["message"], alert["severity"], True)`.  Items processed before a
lookup failure stay appended; the failure text is returned for the
stage's handler. -/
def processResultAlerts (ts : Nat → String) (category : String) :
    List Json → RxSentinelAgents → RxSentinelAgents × Option String
  | [], a => (a, none)
  | item :: rest, a =>
    match dictItem item "type" with
    | .error e => (a, some e)
    | .ok t =>
      match dictItem item "message" with
      | .error e => (a, some e)
      | .ok m =>
        match dictItem item "severity" with
        | .error e => (a, some e)
        | .ok sv =>
          processResultAlerts ts category rest (add_alert ts t category m sv true a)

/-- Failure handler of `ocr_nlp_agent` (lines 311–314): severity-5 alert,
`prescription_data` reset to the empty dict (not an error record). -/
def ocrFail (ts : Nat → String) (e : String) (sys : Sys) : Sys :=
  { agents := add_alert ts (.str "error") "OCR_NLP"
      (.str ("Failed to extract prescription data: " ++ e)) (.num 5) true sys.agents,
    state := { sys.state with prescription_data := .obj [] } }

/-- The four `setdefault` calls of `ocr_nlp_agent` (lines 299–302). -/
def setdefault4 (j : Json) : Json :=
  setdefault (setdefault (setdefault (setdefault j "Medications" (.arr []))
    "Doctor Info" (.obj [])) "Patient Info" (.obj [])) "Pharmacy Info" (.obj [])

/-- Stage 1, `ocr_nlp_agent`: extract prescription data from the images.
The engine response must be a non-empty dict; the four top-level
sub-records are defaulted with `setdefault`. -/
def ocr_nlp_agent (ts : Nat → String) (resp : Except String Json) (sys : Sys) : Sys :=
  let image_list := match sys.state.image_data with
    | .str s => Json.arr [.str s]
    | j => j
  match pyIter image_list with
  | .error e => ocrFail ts e sys
  | .ok _ =>
    match resp with
    | .error e => ocrFail ts e sys
    | .ok result =>
      match result with
      | .obj (kv :: kvs) =>
        let pd := setdefault4 (Json.obj (kv :: kvs))
        match dictGet pd "Medications" (.arr []) with
        | .error e => ocrFail ts e sys
        | .ok meds =>
          match pyLen meds with
          | .error e => ocrFail ts e sys
          | .ok n =>
            { agents := add_audit_entry ts "OCR_NLP"
                "Prescription data extracted successfully" pd sys.agents,
              state := { sys.state with
                messages := sys.state.messages ++
                  [{ role := .ai,
                     content := "OCR extraction complete. Found " ++ toString n ++ " medications." }],
                prescription_data := pd } }
      | _ => ocrFail ts "OCR returned empty or invalid JSON." sys

/-- The Pipeline-State result fields a stage can designate. -/
inductive ResField where
  | prescription_data : ResField
  | license_verification : ResField
  | dea_verification : ResField
  | state_compliance : ResField
  | controlled_substance_check : ResField
  | dosage_monitoring : ResField
  | bud_validation : ResField
  | compounding_compliance : ResField
  | clinical_documentation : ResField
  | case_summary : ResField
deriving DecidableEq

/-- Read one result field of the state. -/
def getField : ResField → RxState → Json
  | .prescription_data, st => st.prescription_data
  | .license_verification, st => st.license_verification
  | .dea_verification, st => st.dea_verification
  | .state_compliance, st => st.state_compliance
  | .controlled_substance_check, st => st.controlled_substance_check
  | .dosage_monitoring, st => st.dosage_monitoring
  | .bud_validation, st => st.bud_validation
  | .compounding_compliance, st => st.compounding_compliance
  | .clinical_documentation, st => st.clinical_documentation
  | .case_summary, st => st.case_summary

/-- Write one result field of the state. -/
def setField : ResField → RxState → Json → RxState
  | .prescription_data, st, v => { st with prescription_data := v }
  | .license_verification, st, v => { st with license_verification := v }
  | .dea_verification, st, v => { st with dea_verification := v }
  | .state_compliance, st, v => { st with state_compliance := v }
  | .controlled_substance_check, st, v => { st with controlled_substance_check := v }
  | .dosage_monitoring, st, v => { st with dosage_monitoring := v }
  | .bud_validation, st, v => { st with bud_validation := v }
  | .compounding_compliance, st, v => { st with compounding_compliance := v }
  | .clinical_documentation, st, v => { st with clinical_documentation := v }
  | .case_summary, st, v => { st with case_summary := v }

/-- `prescription_data.get(...)` reads a stage performs before its call,
in source order, faulting like the first failing `.get`. -/
def readAll (pd : Json) : List (String × Json) → Except String (List Json)
  | [] => .ok []
  | (k, d) :: rest =>
    match dictGet pd k d with
    | .error e => .error e
    | .ok v => (readAll pd rest).map (fun vs => v :: vs)

/-- The stage-specific data of the eight middle stages
(`license_verification_agent` … `clinical_documentation_agent`), whose
bodies repeat one literal shape in the source: read inputs from
`prescription_data`, append a human message, invoke the engine, loop over
embedded alerts, append an AI message derived from the result, record one
audit entry, store the result in the designated field — with an
`except` handler appending one severity-4 error alert and storing
`{"error": str(e)}` instead. -/
structure MidStageCfg where
  category : String
  failMsgHead : String
  reads : List (String × Json)
  humanMsg : List Json → String
  post : Json → Except String String
  designate : ResField
  auditAction : String

/-- The shared `except` handler of the eight middle stages. -/
def midStageFail (cfg : MidStageCfg) (ts : Nat → String) (e : String) (sys : Sys) : Sys :=
  { agents := add_alert ts (.str "error") cfg.category
      (.str (cfg.failMsgHead ++ e)) (.num 4) true sys.agents,
    state := setField cfg.designate sys.state (errObj e) }

/-- Append one human message to the conversation log. -/
def withHumanMsg (sys : Sys) (content : String) : Sys :=
  { sys with state := { sys.state with
      messages := sys.state.messages ++ [{ role := .human, content := content }] } }

/-- Post-processing tail of a middle stage: AI message derived from the
result, one audit entry, result stored in the designated field. -/
def midStageFinish (cfg : MidStageCfg) (ts : Nat → String) (result : Json) (sys : Sys) : Sys :=
  match cfg.post result with
  | .error e => midStageFail cfg ts e sys
  | .ok content =>
    { agents := add_audit_entry ts cfg.category cfg.auditAction result sys.agents,
      state := setField cfg.designate
        { sys.state with messages := sys.state.messages ++
            [{ role := .ai, content := content }] } result }

/-- Result handling of a middle stage: loop over embedded alerts, then
finish; a faulting lookup mid-loop keeps the alerts already appended. -/
def midStageResult (cfg : MidStageCfg) (ts : Nat → String) (result : Json) (sys : Sys) : Sys :=
  match dictGet result "alerts" (.arr []) with
  | .error e => midStageFail cfg ts e sys
  | .ok alertsVal =>
    match pyIter alertsVal with
    | .error e => midStageFail cfg ts e sys
    | .ok items =>
      match processResultAlerts ts cfg.category items sys.agents with
      | (agents', some e) => midStageFail cfg ts e { sys with agents := agents' }
      | (agents', none) => midStageFinish cfg ts result { sys with agents := agents' }

/-- The shared body of the eight middle stages: read the declared
`prescription_data` inputs, append the human message, then dispatch on
the engine call's outcome. -/
def midStage (cfg : MidStageCfg) (ts : Nat → String) (resp : Except String Json) (sys : Sys) : Sys :=
  match readAll sys.state.prescription_data cfg.reads with
  | .error e => midStageFail cfg ts e sys
  | .ok vals =>
    match resp with
    | .error e => midStageFail cfg ts e (withHumanMsg sys (cfg.humanMsg vals))
    | .ok result => midStageResult cfg ts result (withHumanMsg sys (cfg.humanMsg vals))

/-- Stage 2 data: `license_verification_agent` (lines 317–392). -/
def license_verification_cfg : MidStageCfg :=
  { category := "LICENSE_VERIFICATION"
    failMsgHead := "License verification failed: "
    reads := [("Doctor Info", .obj [])]
    humanMsg := fun vals => "Verifying license for: " ++ jdump (vals.headD .null)
    post := fun result => (dictGet result "license_status" (.str "unknown")).map
      (fun status => "License verification complete. Status: " ++ pyStr status)
    designate := .license_verification
    auditAction := "License verification completed" }

/-- Stage 2, `license_verification_agent`. -/
def license_verification_agent : (Nat → String) → Except String Json → Sys → Sys :=
  midStage license_verification_cfg

/-- Stage 3 data: `dea_verification_agent` (lines 394–474). -/
def dea_verification_cfg : MidStageCfg :=
  { category := "DEA_VERIFICATION"
    failMsgHead := "DEA verification failed: "
    reads := [("Doctor Info", .obj []), ("Medications", .arr [])]
    humanMsg := fun _ => "Verifying DEA for controlled substances"
    post := fun result =>
      match dictGet result "controlled_substances_found" (.arr []) with
      | .error e => .error e
      | .ok found => (pyLen found).map
          (fun n => "DEA verification complete. Found " ++ toString n ++ " controlled substances.")
    designate := .dea_verification
    auditAction := "DEA verification completed" }

/-- Stage 3, `dea_verification_agent`. -/
def dea_verification_agent : (Nat → String) → Except String Json → Sys → Sys :=
  midStage dea_verification_cfg

/-- Stage 4 data: `state_compliance_agent` (lines 476–557). -/
def state_compliance_cfg : MidStageCfg :=
  { category := "STATE_COMPLIANCE"
    failMsgHead := "State compliance check failed: "
    reads := [("Doctor Info", .obj []), ("Patient Info", .obj []), ("Medications", .arr [])]
    humanMsg := fun _ => "Checking state compliance requirements"
    post := fun result => (dictGet result "compliance_status" (.str "unknown")).map
      (fun status => "State compliance check complete. Status: " ++ pyStr status)
    designate := .state_compliance
    auditAction := "State compliance check completed" }

/-- Stage 4, `state_compliance_agent`. -/
def state_compliance_agent : (Nat → String) → Except String Json → Sys → Sys :=
  midStage state_compliance_cfg

/-- Stage 5 data: `controlled_substance_agent` (lines 559–643).  The
stage-3 and stage-4 outputs are read directly from state keys that are
always present and serialized without faulting, so only the
`prescription_data` read appears here. -/
def controlled_substance_cfg : MidStageCfg :=
  { category := "CONTROLLED_SUBSTANCE"
    failMsgHead := "Controlled substance monitoring failed: "
    reads := [("Medications", .arr [])]
    humanMsg := fun _ => "Monitoring controlled substances"
    post := fun result =>
      match dictGet result "controlled_substances" (.arr []) with
      | .error e => .error e
      | .ok found => (pyLen found).map
          (fun n => "Controlled substance monitoring complete. Found " ++ toString n ++ " controlled substances.")
    designate := .controlled_substance_check
    auditAction := "Controlled substance monitoring completed" }

/-- Stage 5, `controlled_substance_agent`. -/
def controlled_substance_agent : (Nat → String) → Except String Json → Sys → Sys :=
  midStage controlled_substance_cfg

/-- Stage 6 data: `dosage_monitoring_agent` (lines 645–744). -/
def dosage_monitoring_cfg : MidStageCfg :=
  { category := "DOSAGE_MONITORING"
    failMsgHead := "Dosage monitoring failed: "
    reads := [("Medications", .arr []), ("Patient Info", .obj [])]
    humanMsg := fun _ => "Analyzing medication dosages"
    post := fun result =>
      match dictGet result "dosage_alerts" (.arr []) with
      | .error e => .error e
      | .ok da => (pyLen da).map
          (fun n => "Dosage monitoring complete. Found " ++ toString n ++ " dosage alerts.")
    designate := .dosage_monitoring
    auditAction := "Dosage monitoring completed" }

/-- Stage 6, `dosage_monitoring_agent`. -/
def dosage_monitoring_agent : (Nat → String) → Except String Json → Sys → Sys :=
  midStage dosage_monitoring_cfg

/-- Stage 7 data: `bud_validation_agent` (lines 746–835). -/
def bud_validation_cfg : MidStageCfg :=
  { category := "BUD_VALIDATION"
    failMsgHead := "BUD validation failed: "
    reads := [("Medications", .arr [])]
    humanMsg := fun _ => "Validating Beyond Use Dates"
    post := fun result =>
      match dictGet result "bud_alerts" (.arr []) with
      | .error e => .error e
      | .ok ba => (pyLen ba).map
          (fun n => "BUD validation complete. Found " ++ toString n ++ " BUD alerts.")
    designate := .bud_validation
    auditAction := "BUD validation completed" }

/-- Stage 7, `bud_validation_agent`. -/
def bud_validation_agent : (Nat → String) → Except String Json → Sys → Sys :=
  midStage bud_validation_cfg

/-- Stage 8 data: `compounding_compliance_agent` (lines 837–944, with the
failure handler of its verbatim twin at lines 1054–1057). -/
def compounding_compliance_cfg : MidStageCfg :=
  { category := "COMPOUNDING_COMPLIANCE"
    failMsgHead := "Compounding compliance check failed: "
    reads := [("Medications", .arr []), ("Patient Info", .obj [])]
    humanMsg := fun _ => "Checking compounding compliance and shipping governance"
    post := fun result => (dictGet result "compliance_status" (.str "unknown")).map
      (fun status => "Compounding compliance check complete. Status: " ++ pyStr status)
    designate := .compounding_compliance
    auditAction := "Compounding compliance check completed" }

/-- Stage 8, `compounding_compliance_agent`. -/
def compounding_compliance_agent : (Nat → String) → Except String Json → Sys → Sys :=
  midStage compounding_compliance_cfg

/-- Stage 9 data: `clinical_documentation_agent` (lines 946–1057).  The
body is a copy of stage 8 under another name: category and audit agent
are `COMPOUNDING_COMPLIANCE`, and the result is written into
`compounding_compliance` on both the success path (line 1051) and the
failure path (line 1056) — `clinical_documentation` is never assigned.
The extra `state.get("ocr_text", "")` read (line 952) always yields its
default, since no stage ever writes an `ocr_text` key. -/
def clinical_documentation_cfg : MidStageCfg :=
  { category := "COMPOUNDING_COMPLIANCE"
    failMsgHead := "Compounding compliance check failed: "
    reads := [("Medications", .arr []), ("Patient Info", .obj [])]
    humanMsg := fun _ => "Checking compounding compliance and shipping governance"
    post := fun result => (dictGet result "compliance_status" (.str "unknown")).map
      (fun status => "Compounding compliance check complete. Status: " ++ pyStr status)
    designate := .compounding_compliance
    auditAction := "Compounding compliance check completed" }

/-- Stage 9, `clinical_documentation_agent`. -/
def clinical_documentation_agent : (Nat → String) → Except String Json → Sys → Sys :=
  midStage clinical_documentation_cfg

/-- Failure handler of `case_summary_agent` (lines 1159–1162): the
designated field receives a plain failure string, not an error record. -/
def caseSummaryFail (ts : Nat → String) (e : String) (sys : Sys) : Sys :=
  { agents := add_alert ts (.str "error") "CASE_SUMMARY"
      (.str ("Case summary generation failed: " ++ e)) (.num 4) true sys.agents,
    state := { sys.state with case_summary := .str ("Case summary generation failed: " ++ e) } }

/-- Stage 10, `case_summary_agent`: comprehensive case summary over every
prior stage's output.  It processes no embedded alerts; the risk-level
message requires `result.get("risk_assessment", {})` to be a dict. -/
def case_summary_agent (ts : Nat → String) (resp : Except String Json) (sys : Sys) : Sys :=
  let sys := { sys with state := { sys.state with
    messages := sys.state.messages ++
      [{ role := .human, content := "Generating comprehensive case summary" }] } }
  match resp with
  | .error e => caseSummaryFail ts e sys
  | .ok case_summary_result =>
    match dictGet case_summary_result "risk_assessment" (.obj []) with
    | .error e => caseSummaryFail ts e sys
    | .ok risk =>
      match dictGet risk "overall_risk_level" (.str "unknown") with
      | .error e => caseSummaryFail ts e sys
      | .ok level =>
        { agents := add_audit_entry ts "CASE_SUMMARY"
            "Case summary generated" case_summary_result sys.agents,
          state := { sys.state with
            messages := sys.state.messages ++
              [{ role := .ai,
                 content := "Case summary generated. Risk level: " ++ pyStr level }],
            case_summary := case_summary_result } }

/-- Failure handler of `final_review_agent` (lines 1218–1222): severity-5
alert, `approval_status` forced to `"error"`, `confidence_score` to 0.0;
no designated result field is written. -/
def finalReviewFail (ts : Nat → String) (e : String) (sys : Sys) : Sys :=
  { agents := add_alert ts (.str "error") "FINAL_REVIEW"
      (.str ("Final review failed: " ++ e)) (.num 5) true sys.agents,
    state := { sys.state with approval_status := .str "error", confidence_score := .num 0 } }

/-- Stage 11, `final_review_agent`: final decision.  The response's
`approval_status` and `confidence_score` are copied into the state
verbatim; a missing `confidence_score` key faults after `approval_status`
was already assigned and the audit entry recorded, after which the
handler overwrites the status with `"error"`. -/
def final_review_agent (ts : Nat → String) (resp : Except String Json) (sys : Sys) : Sys :=
  let sys := { sys with state := { sys.state with
    messages := sys.state.messages ++
      [{ role := .human, content := "Performing final review" }] } }
  match dictGet sys.state.prescription_data "prescription_id" (.str "N/A") with
  | .error e => finalReviewFail ts e sys
  | .ok _prescription_id =>
    match resp with
    | .error e => finalReviewFail ts e sys
    | .ok result =>
      match dictItem result "approval_status" with
      | .error e => finalReviewFail ts e sys
      | .ok status =>
        let sys := { sys with
          agents := add_audit_entry ts "FINAL_REVIEW" "Review complete" result sys.agents,
          state := { sys.state with
            messages := sys.state.messages ++
              [({ role := .ai,
                  content := "Final review complete. Approval status: " ++ pyStr status } : Message)] } }
        match dictItem result "confidence_score" with
        | .error e =>
          finalReviewFail ts e
            { sys with state := { sys.state with approval_status := status } }
        | .ok conf =>
          { sys with state := { sys.state with
              approval_status := status, confidence_score := conf } }

/-- The node names of `create_workflow`, one per stage. -/
inductive StageId where
  | ocr_nlp : StageId
  | license_verification : StageId
  | dea_verification : StageId
  | state_compliance : StageId
  | controlled_substance : StageId
  | dosage_monitoring : StageId
  | bud_validation : StageId
  | compounding_compliance : StageId
  | clinical_documentation : StageId
  | case_summary : StageId
  | final_review : StageId
deriving DecidableEq

/-- Dispatch a stage node to its stage function. -/
def runStage : StageId → (Nat → String) → Except String Json → Sys → Sys
  | .ocr_nlp => ocr_nlp_agent
  | .license_verification => license_verification_agent
  | .dea_verification => dea_verification_agent
  | .state_compliance => state_compliance_agent
  | .controlled_substance => controlled_substance_agent
  | .dosage_monitoring => dosage_monitoring_agent
  | .bud_validation => bud_validation_agent
  | .compounding_compliance => compounding_compliance_agent
  | .clinical_documentation => clinical_documentation_agent
  | .case_summary => case_summary_agent
  | .final_review => final_review_agent

/-- The edge chain of `create_workflow` (lines 110–121): entry point
`ocr_nlp_agent`, then one unconditional edge to each successive stage,
ending at `final_review_agent → END`. -/
def create_workflow : List StageId :=
  [.ocr_nlp, .license_verification, .dea_verification, .state_compliance,
   .controlled_substance, .dosage_monitoring, .bud_validation,
   .compounding_compliance, .clinical_documentation, .case_summary, .final_review]

/-- Run a chain of stages in order, the i-th stage consuming `oracle i`. -/
def invokeStages (ts : Nat → String) (oracle : Nat → Except String Json) :
    List StageId → Nat → Sys → Sys
  | [], _, sys => sys
  | st :: rest, i, sys => invokeStages ts oracle rest (i + 1) (runStage st ts (oracle i) sys)

/-- `workflow.invoke(initial_state)`: execute the full compiled graph. -/
def workflowInvoke (ts : Nat → String) (oracle : Nat → Except String Json) (sys : Sys) : Sys :=
  invokeStages ts oracle create_workflow 0 sys

/-- The `initial_state` dict built by `main` (lines 1421–1438). -/
def initialRxState (images : List String) : RxState :=
  { image_data := .arr (images.map Json.str)
    document_type := "prescription"
    messages := []
    prescription_data := .obj []
    license_verification := .obj []
    dea_verification := .obj []
    state_compliance := .obj []
    controlled_substance_check := .obj []
    dosage_monitoring := .obj []
    bud_validation := .obj []
    compounding_compliance := .obj []
    clinical_documentation := .obj []
    case_summary := .null
    alerts := []
    approval_status := .str ""
    audit_trail := []
    confidence_score := .num 0 }

/-- A fresh instance plus the initial state: what one `main` call builds
before invoking the workflow. -/
def initSys (images : List String) : Sys :=
  { agents := mkRxSentinelAgents, state := initialRxState images }

/-- Serialization of an alert record, as stored in `self.alerts`. -/
def alertToJson (al : Alert) : Json :=
  .obj [("type", al.type_), ("category", .str al.category), ("message", al.message),
        ("severity", al.severity), ("requires_human_review", .bool al.requires_human_review),
        ("timestamp", .str al.timestamp)]

/-- Serialization of an audit-trail entry. -/
def auditEntryToJson (en : AuditEntry) : Json :=
  .obj [("agent", .str en.agent), ("action", .str en.action),
        ("timestamp", .str en.timestamp), ("data", en.data)]

/-- Serialization of a conversation-log message (`json.dump` with
`default=str` stringifies message objects; only the content is kept). -/
def messageToJson (m : Message) : Json := .str m.content

/-- The final-state dict as `main` serializes and returns it; key order
follows `initial_state` insertion order with `case_summary` appended by
stage 10. -/
def stateToJson (st : RxState) : Json :=
  .obj [("image_data", st.image_data),
        ("document_type", .str st.document_type),
        ("messages", .arr (st.messages.map messageToJson)),
        ("prescription_data", st.prescription_data),
        ("license_verification", st.license_verification),
        ("dea_verification", st.dea_verification),
        ("state_compliance", st.state_compliance),
        ("controlled_substance_check", st.controlled_substance_check),
        ("dosage_monitoring", st.dosage_monitoring),
        ("bud_validation", st.bud_validation),
        ("compounding_compliance", st.compounding_compliance),
        ("clinical_documentation", st.clinical_documentation),
        ("alerts", .arr (st.alerts.map alertToJson)),
        ("approval_status", st.approval_status),
        ("audit_trail", .arr (st.audit_trail.map auditEntryToJson)),
        ("confidence_score", st.confidence_score),
        ("case_summary", st.case_summary)]

/-- The synthetic `error_result` of `main`'s outer handler
(lines 1478–1491): one SYSTEM_ERROR alert, empty audit trail. -/
def errorResult (e : String) (t0 : String) : Json :=
  .obj [("error", .str e),
        ("approval_status", .str "error"),
        ("confidence_score", .num 0),
        ("alerts", .arr [.obj [("type", .str "error"), ("category", .str "SYSTEM_ERROR"),
            ("message", .str ("Processing failed: " ++ e)), ("severity", .num 5),
            ("requires_human_review", .bool true), ("timestamp", .str t0)]]),
        ("audit_trail", .arr [])]

/-- ASCII lowering of one character (`str.lower()`; the inputs the
pipeline lowers are ASCII). -/
def pyToLower (c : Char) : Char :=
  if 'A' ≤ c ∧ c ≤ 'Z' then Char.ofNat (c.toNat + 32) else c

/-- ASCII lowering of a string. -/
def pyLowerStr (s : String) : String := ⟨s.data.map pyToLower⟩

/-- An input document for `main`: file extension, the per-page images a
PDF yields, and the raw (encoded) bytes used verbatim in image mode. -/
structure InputDoc where
  ext : String
  pages : List String
  raw : String

/-- The post-acquisition body of `main`: index the first image (an empty
list raises IndexError at line 1413, caught by the outer handler before
any stage runs), build the workflow with a fresh instance, invoke it, and
return the final state with `image_data` replaced by a data URL. -/
def processImages (ts : Nat → String) (oracle : Nat → Except String Json)
    (images : List String) : Json :=
  match images with
  | [] => errorResult "list index out of range" (ts 0)
  | img0 :: _ =>
    let final := workflowInvoke ts oracle (initSys images)
    stateToJson { final.state with
      image_data := .str ("data:image/png;base64," ++ img0) }

/-- The `main` entry point (lines 1372–1496): PDF mode forwards every
page image, image mode forwards the single encoded file, any other
extension raises the ValueError caught by the outer handler. -/
def main' (ts : Nat → String) (oracle : Nat → Except String Json) (doc : InputDoc) : Json :=
  let file_ext := pyLowerStr doc.ext
  if file_ext = ".pdf" then
    processImages ts oracle doc.pages
  else if file_ext = ".png" ∨ file_ext = ".jpg" ∨ file_ext = ".jpeg" then
    processImages ts oracle [doc.raw]
  else
    errorResult "Unsupported file type: only PDF and image files are supported." (ts 0)

/-- The static `schedule_limits` dict of `_get_max_refills_for_schedule`. -/
def schedule_limits : List (String × Int) :=
  [("Schedule II", 0), ("Schedule III", 5), ("Schedule IV", 5), ("Schedule V", 5)]

/-- `_get_max_refills_for_schedule`: static lookup with default 0. -/
def get_max_refills_for_schedule (schedule : String) : Int :=
  ((schedule_limits.find? (fun kv => kv.1 == schedule)).map Prod.snd).getD 0

/-- Units recognized by the duration regex `(\d+)\s*(day|week|month)`. -/
inductive DurUnit where
  | day : DurUnit
  | week : DurUnit
  | month : DurUnit
deriving DecidableEq

/-- Try the alternation `day|week|month` at the head of the text. -/
def durUnitAt : List Char → Option DurUnit
  | 'd' :: 'a' :: 'y' :: _ => some .day
  | 'w' :: 'e' :: 'e' :: 'k' :: _ => some .week
  | 'm' :: 'o' :: 'n' :: 't' :: 'h' :: _ => some .month
  | _ => none

/-- ASCII whitespace matched by `\s`. -/
def isPySpace (c : Char) : Bool :=
  c == ' ' || c == '\t' || c == '\n' || c == '\r' || c == '\x0b' || c == '\x0c'

/-- Split a maximal leading digit run from the text. -/
def takeDigits : List Char → List Char × List Char
  | [] => ([], [])
  | c :: rest =>
    if c.isDigit then
      let (ds, rem) := takeDigits rest
      (c :: ds, rem)
    else ([], c :: rest)

/-- Numeric value of a digit run. -/
def digitsVal (ds : List Char) : Nat :=
  ds.foldl (fun acc c => acc * 10 + (c.toNat - '0'.toNat)) 0

/-- `re.search(r'(\d+)\s*(day|week|month)', text)`: leftmost match.  At a
digit position the whole digit run is taken (backtracking into the run or
into the space run cannot help, since the alternatives start with a
letter), then optional whitespace, then the unit alternation; on failure
the scan restarts one character further right. -/
def reSearchDuration : List Char → Option (Nat × DurUnit)
  | [] => none
  | c :: rest =>
    if c.isDigit then
      let p := takeDigits (c :: rest)
      match durUnitAt (p.2.dropWhile isPySpace) with
      | some u => some (digitsVal p.1, u)
      | none => reSearchDuration rest
    else reSearchDuration rest

/-- `_parse_duration_to_days` (lines 1330–1350). -/
def parse_duration_to_days (duration_str : String) : Nat :=
  if duration_str = "" then 30
  else
    match reSearchDuration (pyLowerStr duration_str).data with
    | some (number, .day) => number
    | some (number, .week) => number * 7
    | some (number, .month) => number * 30
    | none => 30

/-- Whether a JSON value is a dict. -/
def isObjB : Json → Bool
  | .obj _ => true
  | _ => false

/-- Whether a JSON value has a key (dicts only). -/
def jHasKey (j : Json) (key : String) : Bool :=
  match j with
  | .obj kvs => (jlookup kvs key).isSome
  | _ => false

/-- Whether one engine-embedded alert carries the three keys the
per-stage loop subscripts. -/
def alertItemOk : Json → Bool
  | .obj kvs =>
    (jlookup kvs "type").isSome && (jlookup kvs "message").isSome &&
      (jlookup kvs "severity").isSome
  | _ => false

/-- Whether iterating a response's `alerts` value processes without a
fault (a list of well-keyed dicts, or a vacuous iteration). -/
def alertsValOk : Json → Bool
  | .arr xs => xs.all alertItemOk
  | .obj kvs => kvs.isEmpty
  | .str s => s.data.isEmpty
  | _ => false

/-- Whether a stage response is a dict whose `alerts` value (if any)
processes without a fault. -/
def respAlertsOk (j : Json) : Bool :=
  match j with
  | .obj kvs =>
    match jlookup kvs "alerts" with
    | none => true
    | some v => alertsValOk v
  | _ => false

/-- Whether `len` succeeds on a value. -/
def lenable : Json → Bool
  | .arr _ => true
  | .str _ => true
  | .obj _ => true
  | _ => false

/-- Whether `len(j.get(key, []))` succeeds on a dict response. -/
def keyLenOk (j : Json) (key : String) : Bool :=
  match j with
  | .obj kvs =>
    match jlookup kvs key with
    | none => true
    | some v => lenable v
  | _ => false

/-- A sufficient well-formedness condition on a stage's response for the
stage to run its success path (given a dict `prescription_data`). -/
def respGood : StageId → Json → Bool
  | .ocr_nlp, j =>
    (match j with | .obj (_ :: _) => true | _ => false) && keyLenOk j "Medications"
  | .license_verification, j => respAlertsOk j
  | .dea_verification, j => respAlertsOk j && keyLenOk j "controlled_substances_found"
  | .state_compliance, j => respAlertsOk j
  | .controlled_substance, j => respAlertsOk j && keyLenOk j "controlled_substances"
  | .dosage_monitoring, j => respAlertsOk j && keyLenOk j "dosage_alerts"
  | .bud_validation, j => respAlertsOk j && keyLenOk j "bud_alerts"
  | .compounding_compliance, j => respAlertsOk j
  | .clinical_documentation, j => respAlertsOk j
  | .case_summary, j =>
    match j with
    | .obj kvs =>
      match jlookup kvs "risk_assessment" with
      | none => true
      | some v => isObjB v
    | _ => false
  | .final_review, j =>
    match j with
    | .obj kvs =>
      (jlookup kvs "approval_status").isSome && (jlookup kvs "confidence_score").isSome
    | _ => false

/-- Erase an alert's timestamp. -/
def scrubAlert (al : Alert) : Alert := { al with timestamp := "" }

/-- Erase an audit entry's timestamp. -/
def scrubAudit (en : AuditEntry) : AuditEntry := { en with timestamp := "" }

/-- Erase everything clock-derived from the instance state: what remains
is the timestamp-independent observable content of the two ledgers. -/
def scrubAgents (a : RxSentinelAgents) : RxSentinelAgents :=
  { alerts := a.alerts.map scrubAlert,
    audit_trail := a.audit_trail.map scrubAudit,
    clock := 0 }

/-- Number of recorded alerts of a category, over the instance ledger. -/
def categoryCount (alerts : List Alert) (category : String) : Nat :=
  (alerts.filter (fun al => al.category == category)).length

theorem getField_setField_eq (g : ResField) (st : RxState) (v : Json) :
    getField g (setField g st v) = v := by
  cases g <;> rfl

theorem getField_setField_ne (f g : ResField) (st : RxState) (v : Json) (h : f ≠ g) :
    getField f (setField g st v) = getField f st := by
  cases f <;> cases g <;> simp_all [getField, setField]

theorem setField_alerts (g : ResField) (st : RxState) (v : Json) :
    (setField g st v).alerts = st.alerts := by
  cases g <;> rfl

theorem setField_audit_trail (g : ResField) (st : RxState) (v : Json) :
    (setField g st v).audit_trail = st.audit_trail := by
  cases g <;> rfl

theorem setField_approval_status (g : ResField) (st : RxState) (v : Json) :
    (setField g st v).approval_status = st.approval_status := by
  cases g <;> rfl

theorem setField_confidence_score (g : ResField) (st : RxState) (v : Json) :
    (setField g st v).confidence_score = st.confidence_score := by
  cases g <;> rfl

theorem setField_messages (g : ResField) (st : RxState) (v : Json) :
    (setField g st v).messages = st.messages := by
  cases g <;> rfl

theorem getField_messages_update (f : ResField) (st : RxState) (ms : List Message) :
    getField f { st with messages := ms } = getField f st := by
  cases f <;> rfl

theorem add_alert_audit_trail (ts : Nat → String) (t : Json) (c : String) (m sv : Json)
    (r : Bool) (a : RxSentinelAgents) :
    (add_alert ts t c m sv r a).audit_trail = a.audit_trail := rfl

theorem add_alert_alerts (ts : Nat → String) (t : Json) (c : String) (m sv : Json)
    (r : Bool) (a : RxSentinelAgents) :
    (add_alert ts t c m sv r a).alerts = a.alerts ++
      [{ type_ := t, category := c, message := m, severity := sv,
         requires_human_review := r, timestamp := ts a.clock }] := rfl

theorem add_audit_entry_alerts (ts : Nat → String) (ag ac : String) (d : Json)
    (a : RxSentinelAgents) :
    (add_audit_entry ts ag ac d a).alerts = a.alerts := rfl

theorem add_audit_entry_audit_trail (ts : Nat → String) (ag ac : String) (d : Json)
    (a : RxSentinelAgents) :
    (add_audit_entry ts ag ac d a).audit_trail = a.audit_trail ++
      [{ agent := ag, action := ac, timestamp := ts a.clock, data := d }] := rfl

theorem scrubAgents_alerts (a : RxSentinelAgents) :
    (scrubAgents a).alerts = a.alerts.map scrubAlert := rfl

theorem scrubAgents_add_alert (ts ts' : Nat → String) (t : Json) (c : String) (m sv : Json)
    (r : Bool) (a a' : RxSentinelAgents) (h : scrubAgents a = scrubAgents a') :
    scrubAgents (add_alert ts t c m sv r a) = scrubAgents (add_alert ts' t c m sv r a') := by
  have h1 := congrArg RxSentinelAgents.alerts h
  have h2 := congrArg RxSentinelAgents.audit_trail h
  simp only [scrubAgents] at h1 h2
  simp [scrubAgents, add_alert, scrubAlert, h1, h2]

theorem scrubAgents_add_audit_entry (ts ts' : Nat → String) (ag ac : String) (d : Json)
    (a a' : RxSentinelAgents) (h : scrubAgents a = scrubAgents a') :
    scrubAgents (add_audit_entry ts ag ac d a) = scrubAgents (add_audit_entry ts' ag ac d a') := by
  have h1 := congrArg RxSentinelAgents.alerts h
  have h2 := congrArg RxSentinelAgents.audit_trail h
  simp only [scrubAgents] at h1 h2
  simp [scrubAgents, add_audit_entry, scrubAudit, h1, h2]

theorem processResultAlerts_audit_trail (ts : Nat → String) (c : String)
    (items : List Json) (a : RxSentinelAgents) :
    (processResultAlerts ts c items a).1.audit_trail = a.audit_trail := by
  induction items generalizing a with
  | nil => rfl
  | cons x rest ih =>
    unfold processResultAlerts
    cases dictItem x "type" with
    | error e => rfl
    | ok t =>
      cases dictItem x "message" with
      | error e => rfl
      | ok m =>
        cases dictItem x "severity" with
        | error e => rfl
        | ok sv => simpa [add_alert] using ih (add_alert ts t c m sv true a)

theorem processResultAlerts_alerts (ts : Nat → String) (c : String)
    (items : List Json) (a : RxSentinelAgents) :
    ∃ t, (processResultAlerts ts c items a).1.alerts = a.alerts ++ t := by
  induction items generalizing a with
  | nil => exact ⟨[], by simp [processResultAlerts]⟩
  | cons x rest ih =>
    unfold processResultAlerts
    cases dictItem x "type" with
    | error e => exact ⟨[], by simp⟩
    | ok t =>
      cases dictItem x "message" with
      | error e => exact ⟨[], by simp⟩
      | ok m =>
        cases dictItem x "severity" with
        | error e => exact ⟨[], by simp⟩
        | ok sv =>
          obtain ⟨u, hu⟩ := ih (add_alert ts t c m sv true a)
          refine ⟨Alert.mk t c m sv true (ts a.clock) :: u, ?_⟩
          rw [hu]
          simp [add_alert]

theorem processResultAlerts_all_ok (ts : Nat → String) (c : String)
    (items : List Json) (a : RxSentinelAgents) (h : items.all alertItemOk = true) :
    (processResultAlerts ts c items a).2 = none := by
  induction items generalizing a with
  | nil => rfl
  | cons x rest ih =>
    simp only [List.all_cons, Bool.and_eq_true] at h
    obtain ⟨hx, hrest⟩ := h
    unfold processResultAlerts
    match x, hx with
    | .obj kvs, hx =>
      simp only [alertItemOk, Bool.and_eq_true, Option.isSome_iff_exists] at hx
      obtain ⟨⟨⟨t, ht⟩, m, hm⟩, sv, hsv⟩ := hx
      simp only [dictItem, ht, hm, hsv]
      exact ih _ hrest

theorem processResultAlerts_scrub (ts ts' : Nat → String) (c : String)
    (items : List Json) (a a' : RxSentinelAgents) (h : scrubAgents a = scrubAgents a') :
    (processResultAlerts ts c items a).2 = (processResultAlerts ts' c items a').2
  ∧ scrubAgents (processResultAlerts ts c items a).1 =
      scrubAgents (processResultAlerts ts' c items a').1 := by
  induction items generalizing a a' with
  | nil => exact ⟨rfl, h⟩
  | cons x rest ih =>
    unfold processResultAlerts
    cases dictItem x "type" with
    | error e => exact ⟨rfl, h⟩
    | ok t =>
      cases dictItem x "message" with
      | error e => exact ⟨rfl, h⟩
      | ok m =>
        cases dictItem x "severity" with
        | error e => exact ⟨rfl, h⟩
        | ok sv => exact ih _ _ (scrubAgents_add_alert ts ts' t c m sv true a a' h)

theorem readAll_isObj (pd : Json) (reads : List (String × Json))
    (h : isObjB pd = true) : ∃ vals, readAll pd reads = .ok vals := by
  induction reads with
  | nil => exact ⟨[], rfl⟩
  | cons kd rest ih =>
    obtain ⟨kvs, rfl⟩ : ∃ kvs, pd = .obj kvs := by
      cases pd <;> simp_all [isObjB]
    obtain ⟨vals, hvals⟩ := ih
    exact ⟨((jlookup kvs kd.1).getD kd.2) :: vals,
      by simp [readAll, dictGet, hvals, Except.map]⟩

theorem midStageFail_state (cfg : MidStageCfg) (ts : Nat → String) (e : String) (sys : Sys) :
    (midStageFail cfg ts e sys).state = setField cfg.designate sys.state (errObj e) := rfl

theorem midStageFail_agents_alerts (cfg : MidStageCfg) (ts : Nat → String) (e : String) (sys : Sys) :
    (midStageFail cfg ts e sys).agents.alerts = sys.agents.alerts ++
      [Alert.mk (.str "error") cfg.category (.str (cfg.failMsgHead ++ e)) (.num 4) true
        (ts sys.agents.clock)] := rfl

theorem midStageFail_agents_audit (cfg : MidStageCfg) (ts : Nat → String) (e : String) (sys : Sys) :
    (midStageFail cfg ts e sys).agents.audit_trail = sys.agents.audit_trail := rfl

theorem withHumanMsg_agents (sys : Sys) (c : String) : (withHumanMsg sys c).agents = sys.agents := rfl

theorem withHumanMsg_getField (f : ResField) (sys : Sys) (c : String) :
    getField f (withHumanMsg sys c).state = getField f sys.state := by
  cases f <;> rfl

/-- Frame facts shared by every path through a middle stage: the state's
own ledgers, the decision fields and every non-designated result field
are untouched; the instance ledgers only grow, the audit trail by at most
one entry. -/
def MidFrame (cfg : MidStageCfg) (sys out : Sys) : Prop :=
  out.state.alerts = sys.state.alerts
  ∧ out.state.audit_trail = sys.state.audit_trail
  ∧ out.state.approval_status = sys.state.approval_status
  ∧ out.state.confidence_score = sys.state.confidence_score
  ∧ (∀ f, f ≠ cfg.designate → getField f out.state = getField f sys.state)
  ∧ (∃ t, out.agents.alerts = sys.agents.alerts ++ t)
  ∧ (∃ u, out.agents.audit_trail = sys.agents.audit_trail ++ u ∧ u.length ≤ 1)

/-- Hypotheses about an intermediate system reached mid-stage: state
changed at most in `messages`, agents changed at most by appended alerts. -/
def MidNeutral (sys sys' : Sys) : Prop :=
  sys'.state.alerts = sys.state.alerts
  ∧ sys'.state.audit_trail = sys.state.audit_trail
  ∧ sys'.state.approval_status = sys.state.approval_status
  ∧ sys'.state.confidence_score = sys.state.confidence_score
  ∧ (∀ f, getField f sys'.state = getField f sys.state)
  ∧ (∃ t, sys'.agents.alerts = sys.agents.alerts ++ t)
  ∧ sys'.agents.audit_trail = sys.agents.audit_trail

theorem midNeutral_refl (sys : Sys) : MidNeutral sys sys :=
  ⟨rfl, rfl, rfl, rfl, fun _ => rfl, ⟨[], by simp⟩, rfl⟩

theorem midNeutral_withHumanMsg (sys sys' : Sys) (c : String) (h : MidNeutral sys sys') :
    MidNeutral sys (withHumanMsg sys' c) := by
  obtain ⟨h1, h2, h3, h4, h5, h6, h7⟩ := h
  exact ⟨h1, h2, h3, h4, fun f => (withHumanMsg_getField f sys' c).trans (h5 f), h6,
    h7⟩

theorem midNeutral_agents (sys sys' : Sys) (a : RxSentinelAgents)
    (h : MidNeutral sys sys') (ha : ∃ t, a.alerts = sys'.agents.alerts ++ t)
    (hau : a.audit_trail = sys'.agents.audit_trail) :
    MidNeutral sys { sys' with agents := a } := by
  obtain ⟨h1, h2, h3, h4, h5, ⟨t, ht⟩, h7⟩ := h
  obtain ⟨u, hu⟩ := ha
  exact ⟨h1, h2, h3, h4, h5, ⟨t ++ u, by simp [hu, ht]⟩, by simp [hau, h7]⟩

theorem frame_of_fail (cfg : MidStageCfg) (ts : Nat → String) (e : String) (sys sys' : Sys)
    (h : MidNeutral sys sys') : MidFrame cfg sys (midStageFail cfg ts e sys') := by
  obtain ⟨h1, h2, h3, h4, h5, ⟨t, ht⟩, h7⟩ := h
  refine ⟨?_, ?_, ?_, ?_, ?_, ?_, ?_⟩
  · rw [midStageFail_state, setField_alerts]; exact h1
  · rw [midStageFail_state, setField_audit_trail]; exact h2
  · rw [midStageFail_state, setField_approval_status]; exact h3
  · rw [midStageFail_state, setField_confidence_score]; exact h4
  · intro f hf
    rw [midStageFail_state, getField_setField_ne f cfg.designate _ _ hf]
    exact h5 f
  · exact ⟨t ++ [Alert.mk (.str "error") cfg.category (.str (cfg.failMsgHead ++ e)) (.num 4) true
      (ts sys'.agents.clock)], by rw [midStageFail_agents_alerts, ht, List.append_assoc]⟩
  · exact ⟨[], by rw [midStageFail_agents_audit, h7]; simp⟩

theorem frame_of_finish (cfg : MidStageCfg) (ts : Nat → String) (result : Json) (sys sys' : Sys)
    (h : MidNeutral sys sys') : MidFrame cfg sys (midStageFinish cfg ts result sys') := by
  unfold midStageFinish
  cases hp : cfg.post result with
  | error e => exact frame_of_fail cfg ts e sys sys' h
  | ok content =>
    obtain ⟨h1, h2, h3, h4, h5, ⟨t, ht⟩, h7⟩ := h
    refine ⟨?_, ?_, ?_, ?_, ?_, ?_, ?_⟩
    · rw [setField_alerts]; exact h1
    · rw [setField_audit_trail]; exact h2
    · rw [setField_approval_status]; exact h3
    · rw [setField_confidence_score]; exact h4
    · intro f hf
      rw [getField_setField_ne f cfg.designate _ _ hf, getField_messages_update]
      exact h5 f
    · exact ⟨t, by rw [add_audit_entry_alerts]; exact ht⟩
    · exact ⟨[AuditEntry.mk cfg.category cfg.auditAction (ts sys'.agents.clock) result],
        by rw [add_audit_entry_audit_trail, h7]; simp⟩

theorem frame_of_result (cfg : MidStageCfg) (ts : Nat → String) (result : Json) (sys sys' : Sys)
    (h : MidNeutral sys sys') : MidFrame cfg sys (midStageResult cfg ts result sys') := by
  unfold midStageResult
  split
  · exact frame_of_fail cfg ts _ sys sys' h
  next alertsVal _ =>
    split
    · exact frame_of_fail cfg ts _ sys sys' h
    next items _ =>
      have hneu : MidNeutral sys
          { sys' with agents := (processResultAlerts ts cfg.category items sys'.agents).1 } :=
        midNeutral_agents sys sys' _ h
          (processResultAlerts_alerts ts cfg.category items sys'.agents)
          (processResultAlerts_audit_trail ts cfg.category items sys'.agents)
      split
      next agents' e hpa =>
        rw [hpa] at hneu
        exact frame_of_fail cfg ts e sys _ hneu
      next agents' hpa =>
        rw [hpa] at hneu
        exact frame_of_finish cfg ts result sys _ hneu

theorem midStage_frame (cfg : MidStageCfg) (ts : Nat → String) (r : Except String Json)
    (sys : Sys) : MidFrame cfg sys (midStage cfg ts r sys) := by
  unfold midStage
  cases readAll sys.state.prescription_data cfg.reads with
  | error e => exact frame_of_fail cfg ts e sys sys (midNeutral_refl sys)
  | ok vals =>
    cases r with
    | error e =>
      exact frame_of_fail cfg ts e sys _
        (midNeutral_withHumanMsg sys sys (cfg.humanMsg vals) (midNeutral_refl sys))
    | ok result =>
      exact frame_of_result cfg ts result sys _
        (midNeutral_withHumanMsg sys sys (cfg.humanMsg vals) (midNeutral_refl sys))

theorem midStage_ok_eq (cfg : MidStageCfg) (ts : Nat → String) (j : Json) (sys : Sys)
    (vals : List Json) (hv : readAll sys.state.prescription_data cfg.reads = .ok vals) :
    midStage cfg ts (.ok j) sys =
      midStageResult cfg ts j (withHumanMsg sys (cfg.humanMsg vals)) := by
  unfold midStage
  rw [hv]

theorem midStage_error_case (cfg : MidStageCfg) (ts : Nat → String) (e : String) (sys : Sys)
    (hpd : isObjB sys.state.prescription_data = true) :
    ∃ vals, readAll sys.state.prescription_data cfg.reads = .ok vals ∧
      midStage cfg ts (.error e) sys =
        midStageFail cfg ts e (withHumanMsg sys (cfg.humanMsg vals)) := by
  obtain ⟨vals, hv⟩ := readAll_isObj sys.state.prescription_data cfg.reads hpd
  refine ⟨vals, hv, ?_⟩
  unfold midStage
  rw [hv]

theorem respAlertsOk_elim (j : Json) (h : respAlertsOk j = true) :
    ∃ av items, dictGet j "alerts" (.arr []) = .ok av ∧ pyIter av = .ok items ∧
      items.all alertItemOk = true := by
  match j, h with
  | .obj kvs, h =>
    cases hl : jlookup kvs "alerts" with
    | none =>
      refine ⟨.arr [], [], ?_, rfl, rfl⟩
      simp [dictGet, hl]
    | some v =>
      have hv : alertsValOk v = true := by
        simpa [respAlertsOk, hl] using h
      have hget : dictGet (.obj kvs) "alerts" (.arr []) = .ok v := by
        simp [dictGet, hl]
      match v, hv with
      | .arr xs, hv => exact ⟨.arr xs, xs, hget, rfl, by simpa [alertsValOk] using hv⟩
      | .obj kvs2, hv =>
        have hk : kvs2 = [] := by
          cases kvs2 with
          | nil => rfl
          | cons a l => simp [alertsValOk] at hv
        subst hk
        exact ⟨.obj [], [], hget, rfl, rfl⟩
      | .str s, hv =>
        have hs : s.data = [] := by
          cases hd : s.data with
          | nil => rfl
          | cons a l => simp [alertsValOk, hd] at hv
        refine ⟨.str s, [], hget, ?_, rfl⟩
        simp [pyIter, hs]

theorem midStageResult_success (cfg : MidStageCfg) (ts : Nat → String) (j : Json) (sys : Sys)
    (content : String) (ha : respAlertsOk j = true) (hc : cfg.post j = .ok content) :
    (∃ t, (midStageResult cfg ts j sys).agents.audit_trail =
        sys.agents.audit_trail ++ [AuditEntry.mk cfg.category cfg.auditAction t j])
  ∧ getField cfg.designate (midStageResult cfg ts j sys).state = j := by
  obtain ⟨av, items, hget, hiter, hall⟩ := respAlertsOk_elim j ha
  have hnone := processResultAlerts_all_ok ts cfg.category items sys.agents hall
  unfold midStageResult
  rw [hget]
  dsimp only
  rw [hiter]
  dsimp only
  rcases hpa : processResultAlerts ts cfg.category items sys.agents with ⟨agents', o⟩
  rw [hpa] at hnone
  dsimp only at hnone
  subst hnone
  have haud : agents'.audit_trail = sys.agents.audit_trail := by
    have := processResultAlerts_audit_trail ts cfg.category items sys.agents
    rw [hpa] at this
    exact this
  unfold midStageFinish
  rw [hc]
  dsimp only
  constructor
  · exact ⟨ts agents'.clock, by rw [add_audit_entry_audit_trail, haud]⟩
  · rw [getField_setField_eq]

theorem midStage_success (cfg : MidStageCfg) (ts : Nat → String) (j : Json) (sys : Sys)
    (content : String)
    (hpd : isObjB sys.state.prescription_data = true)
    (ha : respAlertsOk j = true)
    (hc : cfg.post j = .ok content) :
    (∃ t, (midStage cfg ts (.ok j) sys).agents.audit_trail =
        sys.agents.audit_trail ++ [AuditEntry.mk cfg.category cfg.auditAction t j])
  ∧ getField cfg.designate (midStage cfg ts (.ok j) sys).state = j := by
  obtain ⟨vals, hv⟩ := readAll_isObj sys.state.prescription_data cfg.reads hpd
  rw [midStage_ok_eq cfg ts j sys vals hv]
  exact midStageResult_success cfg ts j (withHumanMsg sys (cfg.humanMsg vals)) content ha hc

theorem midStageFail_det (cfg : MidStageCfg) (ts ts' : Nat → String) (e : String)
    (a a' : RxSentinelAgents) (st : RxState) (h : scrubAgents a = scrubAgents a') :
    (midStageFail cfg ts e ⟨a, st⟩).state = (midStageFail cfg ts' e ⟨a', st⟩).state
  ∧ scrubAgents (midStageFail cfg ts e ⟨a, st⟩).agents =
      scrubAgents (midStageFail cfg ts' e ⟨a', st⟩).agents := by
  exact ⟨rfl, scrubAgents_add_alert ts ts' _ _ _ _ _ a a' h⟩

theorem midStageFinish_det (cfg : MidStageCfg) (ts ts' : Nat → String) (result : Json)
    (a a' : RxSentinelAgents) (st : RxState) (h : scrubAgents a = scrubAgents a') :
    (midStageFinish cfg ts result ⟨a, st⟩).state = (midStageFinish cfg ts' result ⟨a', st⟩).state
  ∧ scrubAgents (midStageFinish cfg ts result ⟨a, st⟩).agents =
      scrubAgents (midStageFinish cfg ts' result ⟨a', st⟩).agents := by
  unfold midStageFinish
  cases hp : cfg.post result with
  | error e => exact midStageFail_det cfg ts ts' e a a' st h
  | ok content =>
    exact ⟨rfl, scrubAgents_add_audit_entry ts ts' _ _ _ a a' h⟩

theorem midStageResult_det (cfg : MidStageCfg) (ts ts' : Nat → String) (result : Json)
    (a a' : RxSentinelAgents) (st : RxState) (h : scrubAgents a = scrubAgents a') :
    (midStageResult cfg ts result ⟨a, st⟩).state = (midStageResult cfg ts' result ⟨a', st⟩).state
  ∧ scrubAgents (midStageResult cfg ts result ⟨a, st⟩).agents =
      scrubAgents (midStageResult cfg ts' result ⟨a', st⟩).agents := by
  unfold midStageResult
  cases hga : dictGet result "alerts" (.arr []) with
  | error e => exact midStageFail_det cfg ts ts' e a a' st h
  | ok av =>
    dsimp only
    cases hpi : pyIter av with
    | error e => exact midStageFail_det cfg ts ts' e a a' st h
    | ok items =>
      dsimp only
      obtain ⟨ho, hs⟩ := processResultAlerts_scrub ts ts' cfg.category items a a' h
      rcases hpa : processResultAlerts ts cfg.category items a with ⟨b, o⟩
      rcases hpa2 : processResultAlerts ts' cfg.category items a' with ⟨b', o'⟩
      rw [hpa, hpa2] at ho hs
      dsimp only at ho hs
      subst ho
      cases o with
      | some e => exact midStageFail_det cfg ts ts' e b b' st hs
      | none => exact midStageFinish_det cfg ts ts' result b b' st hs

theorem midStage_det (cfg : MidStageCfg) (ts ts' : Nat → String) (r : Except String Json)
    (a a' : RxSentinelAgents) (st : RxState) (h : scrubAgents a = scrubAgents a') :
    (midStage cfg ts r ⟨a, st⟩).state = (midStage cfg ts' r ⟨a', st⟩).state
  ∧ scrubAgents (midStage cfg ts r ⟨a, st⟩).agents =
      scrubAgents (midStage cfg ts' r ⟨a', st⟩).agents := by
  unfold midStage
  dsimp only
  cases hv : readAll st.prescription_data cfg.reads with
  | error e => exact midStageFail_det cfg ts ts' e a a' st h
  | ok vals =>
    dsimp only
    cases r with
    | error e =>
      exact midStageFail_det cfg ts ts' e a a'
        (withHumanMsg ⟨a, st⟩ (cfg.humanMsg vals)).state h
    | ok result =>
      exact midStageResult_det cfg ts ts' result a a'
        (withHumanMsg ⟨a, st⟩ (cfg.humanMsg vals)).state h

/-- Key lookup on a JSON value (`None` off dicts). -/
def jget (j : Json) (key : String) : Option Json :=
  match j with
  | .obj kvs => jlookup kvs key
  | _ => none

theorem jlookup_append (l1 l2 : List (String × Json)) (k : String) :
    jlookup (l1 ++ l2) k = ((jlookup l1 k).orElse (fun _ => jlookup l2 k)) := by
  induction l1 with
  | nil => rfl
  | cons kv rest ih =>
    obtain ⟨k1, v1⟩ := kv
    simp only [List.cons_append, jlookup]
    by_cases hk : k1 = k
    · simp [hk, Option.orElse]
    · simp [hk, ih]

theorem isObjB_setdefault (j : Json) (k : String) (d : Json) :
    isObjB (setdefault j k d) = isObjB j := by
  unfold setdefault
  split
  · split <;> rfl
  · rfl

theorem jget_setdefault_ne (j : Json) (k k' : String) (d : Json) (h : ¬ k' = k) :
    jget (setdefault j k' d) k = jget j k := by
  unfold setdefault
  split
  next kvs =>
    split
    next v hv => rfl
    next hv =>
      show jlookup (kvs ++ [(k', d)]) k = jlookup kvs k
      rw [jlookup_append]
      have : jlookup [(k', d)] k = none := by simp [jlookup, h]
      rw [this]
      cases jlookup kvs k <;> rfl
  next => rfl

theorem jget_setdefault_self (kvs : List (String × Json)) (k : String) (d : Json) :
    jget (setdefault (.obj kvs) k d) k = some ((jlookup kvs k).getD d) := by
  show jget (match jlookup kvs k with
    | some _ => Json.obj kvs
    | none => Json.obj (kvs ++ [(k, d)])) k = some ((jlookup kvs k).getD d)
  cases hl : jlookup kvs k with
  | some v => simp [jget, hl]
  | none =>
    show jlookup (kvs ++ [(k, d)]) k = some d
    rw [jlookup_append, hl]
    simp [jlookup, Option.orElse]

theorem jget_setdefault4_medications (kvs : List (String × Json)) :
    jget (setdefault4 (.obj kvs)) "Medications" =
      some ((jlookup kvs "Medications").getD (.arr [])) := by
  unfold setdefault4
  rw [jget_setdefault_ne _ _ _ _ (by decide), jget_setdefault_ne _ _ _ _ (by decide),
    jget_setdefault_ne _ _ _ _ (by decide)]
  exact jget_setdefault_self kvs "Medications" (.arr [])

theorem isObjB_setdefault4 (j : Json) : isObjB (setdefault4 j) = isObjB j := by
  unfold setdefault4
  rw [isObjB_setdefault, isObjB_setdefault, isObjB_setdefault, isObjB_setdefault]

theorem lenable_pyLen (v : Json) (h : lenable v = true) : ∃ n, pyLen v = .ok n := by
  cases v with
  | arr xs => exact ⟨xs.length, rfl⟩
  | str s => exact ⟨s.length, rfl⟩
  | obj kvs => exact ⟨kvs.length, rfl⟩
  | null => simp [lenable] at h
  | bool b => simp [lenable] at h
  | num q => simp [lenable] at h

theorem dictGet_of_isObj (j : Json) (k : String) (d : Json) (hj : isObjB j = true) :
    dictGet j k d = .ok ((jget j k).getD d) := by
  cases j <;> simp_all [isObjB, dictGet, jget]

/-- The frame facts shared by stage 1's paths, stated for a system `out`
whose components relate to `sys` in the listed way. -/
def OcrFrame (sys out : Sys) : Prop :=
  out.state.alerts = sys.state.alerts
  ∧ out.state.audit_trail = sys.state.audit_trail
  ∧ out.state.approval_status = sys.state.approval_status
  ∧ out.state.confidence_score = sys.state.confidence_score
  ∧ (∀ f, f ≠ ResField.prescription_data → getField f out.state = getField f sys.state)
  ∧ (∃ t, out.agents.alerts = sys.agents.alerts ++ t)
  ∧ (∃ u, out.agents.audit_trail = sys.agents.audit_trail ++ u ∧ u.length ≤ 1)
  ∧ isObjB out.state.prescription_data = true

theorem ocrFail_frame (ts : Nat → String) (e : String) (sys : Sys) :
    OcrFrame sys (ocrFail ts e sys) := by
  refine ⟨rfl, rfl, rfl, rfl, fun f hf => ?_, ?_, ?_, rfl⟩
  · cases f <;> first | rfl | exact absurd rfl hf
  · exact ⟨[Alert.mk (.str "error") "OCR_NLP"
      (.str ("Failed to extract prescription data: " ++ e)) (.num 5) true
      (ts sys.agents.clock)], rfl⟩
  · refine ⟨[], ?_, by simp⟩
    simp [ocrFail, add_alert]

theorem ocr_success_frame (ts : Nat → String) (sys : Sys) (kv : String × Json)
    (kvs : List (String × Json)) (n : Nat) :
    OcrFrame sys
      { agents := add_audit_entry ts "OCR_NLP" "Prescription data extracted successfully"
          (setdefault4 (Json.obj (kv :: kvs))) sys.agents,
        state := { sys.state with
          messages := sys.state.messages ++
            [{ role := .ai,
               content := "OCR extraction complete. Found " ++ toString n ++ " medications." }],
          prescription_data := setdefault4 (Json.obj (kv :: kvs)) } } := by
  refine ⟨rfl, rfl, rfl, rfl, fun f hf => ?_, ?_, ?_, ?_⟩
  · cases f <;> first | rfl | exact absurd rfl hf
  · refine ⟨[], ?_⟩
    simp [add_audit_entry]
  · refine ⟨[AuditEntry.mk "OCR_NLP" "Prescription data extracted successfully"
      (ts sys.agents.clock) (setdefault4 (Json.obj (kv :: kvs)))], rfl, by simp⟩
  · rw [isObjB_setdefault4]
    rfl

theorem ocr_frame (ts : Nat → String) (r : Except String Json) (sys : Sys) :
    OcrFrame sys (ocr_nlp_agent ts r sys) := by
  unfold ocr_nlp_agent
  dsimp only
  repeat' split
  all_goals first
    | exact ocrFail_frame ts _ sys
    | exact ocr_success_frame ts sys _ _ _

theorem ocr_noaudit (ts : Nat → String) (e : String) (sys : Sys) :
    (ocr_nlp_agent ts (.error e) sys).agents.audit_trail = sys.agents.audit_trail := by
  unfold ocr_nlp_agent
  dsimp only
  repeat' split
  all_goals rfl

theorem ocr_success (ts : Nat → String) (j : Json) (sys : Sys)
    (hgood : respGood .ocr_nlp j = true)
    (himg : ∃ xs, sys.state.image_data = Json.arr xs) :
    ∃ t pd, (ocr_nlp_agent ts (.ok j) sys).agents.audit_trail =
        sys.agents.audit_trail ++
          [AuditEntry.mk "OCR_NLP" "Prescription data extracted successfully" t pd] := by
  obtain ⟨xs, hxs⟩ := himg
  simp only [respGood, Bool.and_eq_true] at hgood
  obtain ⟨hobj, hlen⟩ := hgood
  match j, hobj, hlen with
  | .obj (kv :: kvs), _, hlen =>
    have hmed : jget (setdefault4 (.obj (kv :: kvs))) "Medications" =
        some ((jlookup (kv :: kvs) "Medications").getD (.arr [])) :=
      jget_setdefault4_medications (kv :: kvs)
    have hlenable : lenable ((jlookup (kv :: kvs) "Medications").getD (.arr [])) = true := by
      simp only [keyLenOk] at hlen
      cases hj : jlookup (kv :: kvs) "Medications" with
      | none => rfl
      | some v => rw [hj] at hlen; simpa using hlen
    obtain ⟨n, hn⟩ := lenable_pyLen _ hlenable
    have hget : dictGet (setdefault4 (.obj (kv :: kvs))) "Medications" (.arr []) =
        .ok ((jlookup (kv :: kvs) "Medications").getD (.arr [])) := by
      rw [dictGet_of_isObj _ _ _ (by rw [isObjB_setdefault4]; rfl), hmed]
      rfl
    unfold ocr_nlp_agent
    rw [hxs]
    try dsimp only
    try simp only [pyIter]
    try dsimp only
    rw [hget]
    try dsimp only
    rw [hn]
    try dsimp only
    exact ⟨ts sys.agents.clock, setdefault4 (.obj (kv :: kvs)), rfl⟩

theorem ocr_det (ts ts' : Nat → String) (r : Except String Json)
    (a a' : RxSentinelAgents) (st : RxState) (h : scrubAgents a = scrubAgents a') :
    (ocr_nlp_agent ts r ⟨a, st⟩).state = (ocr_nlp_agent ts' r ⟨a', st⟩).state
  ∧ scrubAgents (ocr_nlp_agent ts r ⟨a, st⟩).agents =
      scrubAgents (ocr_nlp_agent ts' r ⟨a', st⟩).agents := by
  unfold ocr_nlp_agent ocrFail
  dsimp only
  repeat' split
  all_goals exact ⟨rfl, by first
    | exact scrubAgents_add_alert ts ts' _ _ _ _ _ a a' h
    | exact scrubAgents_add_audit_entry ts ts' _ _ _ a a' h⟩

/-- The frame facts shared by stage 10's paths. -/
def CaseFrame (sys out : Sys) : Prop :=
  out.state.alerts = sys.state.alerts
  ∧ out.state.audit_trail = sys.state.audit_trail
  ∧ out.state.approval_status = sys.state.approval_status
  ∧ out.state.confidence_score = sys.state.confidence_score
  ∧ (∀ f, f ≠ ResField.case_summary → getField f out.state = getField f sys.state)
  ∧ (∃ t, out.agents.alerts = sys.agents.alerts ++ t)
  ∧ (∃ u, out.agents.audit_trail = sys.agents.audit_trail ++ u ∧ u.length ≤ 1)

theorem caseFail_frame (ts : Nat → String) (e : String) (sys sys2 : Sys)
    (hst : sys2.state = { sys.state with
      messages := sys.state.messages ++ [{ role := .human, content := "Generating comprehensive case summary" }] })
    (hag : sys2.agents = sys.agents) :
    CaseFrame sys (caseSummaryFail ts e sys2) := by
  refine ⟨?_, ?_, ?_, ?_, fun f hf => ?_, ?_, ?_⟩
  · simp [caseSummaryFail, hst]
  · simp [caseSummaryFail, hst]
  · simp [caseSummaryFail, hst]
  · simp [caseSummaryFail, hst]
  · cases f <;> simp_all [caseSummaryFail, getField]
  · refine ⟨[Alert.mk (.str "error") "CASE_SUMMARY"
      (.str ("Case summary generation failed: " ++ e)) (.num 4) true
      (ts sys2.agents.clock)], ?_⟩
    simp [caseSummaryFail, add_alert, hag]
  · refine ⟨[], ?_, by simp⟩
    simp [caseSummaryFail, add_alert, hag]

theorem case_summary_frame (ts : Nat → String) (r : Except String Json) (sys : Sys) :
    CaseFrame sys (case_summary_agent ts r sys) := by
  unfold case_summary_agent
  dsimp only
  repeat' split
  all_goals first
    | exact caseFail_frame ts _ sys _ rfl rfl
    | refine ⟨rfl, rfl, rfl, rfl, fun f hf => ?_, ⟨[], ?_⟩, ?_⟩
  all_goals first
    | (cases f <;> first | rfl | exact absurd rfl hf)
    | simp [add_audit_entry]
    | (refine ⟨[AuditEntry.mk "CASE_SUMMARY" "Case summary generated"
        (ts sys.agents.clock) _], rfl, by simp⟩)

theorem case_summary_noaudit (ts : Nat → String) (e : String) (sys : Sys) :
    (case_summary_agent ts (.error e) sys).agents.audit_trail = sys.agents.audit_trail := by
  unfold case_summary_agent
  dsimp only
  repeat' split
  all_goals rfl

theorem case_summary_success (ts : Nat → String) (j : Json) (sys : Sys)
    (hgood : respGood .case_summary j = true) :
    ∃ t, (case_summary_agent ts (.ok j) sys).agents.audit_trail =
        sys.agents.audit_trail ++ [AuditEntry.mk "CASE_SUMMARY" "Case summary generated" t j] := by
  match j, hgood with
  | .obj kvs, hgood =>
    simp only [respGood] at hgood
    have hrisk : ∃ risk, dictGet (.obj kvs) "risk_assessment" (.obj []) = .ok risk
        ∧ isObjB risk = true := by
      cases hl : jlookup kvs "risk_assessment" with
      | none => exact ⟨.obj [], by simp [dictGet, hl], rfl⟩
      | some v =>
        rw [hl] at hgood
        exact ⟨v, by simp [dictGet, hl], hgood⟩
    obtain ⟨risk, hget, hriskobj⟩ := hrisk
    obtain ⟨kvs2, hk2⟩ : ∃ kvs2, risk = .obj kvs2 := by
      cases risk <;> simp_all [isObjB]
    unfold case_summary_agent
    dsimp only
    rw [hget]
    try dsimp only
    rw [hk2]
    try dsimp only
    simp only [dictGet]
    try dsimp only
    exact ⟨ts sys.agents.clock, rfl⟩

theorem case_summary_det (ts ts' : Nat → String) (r : Except String Json)
    (a a' : RxSentinelAgents) (st : RxState) (h : scrubAgents a = scrubAgents a') :
    (case_summary_agent ts r ⟨a, st⟩).state = (case_summary_agent ts' r ⟨a', st⟩).state
  ∧ scrubAgents (case_summary_agent ts r ⟨a, st⟩).agents =
      scrubAgents (case_summary_agent ts' r ⟨a', st⟩).agents := by
  unfold case_summary_agent caseSummaryFail
  dsimp only
  repeat' split
  all_goals exact ⟨rfl, by first
    | exact scrubAgents_add_alert ts ts' _ _ _ _ _ a a' h
    | exact scrubAgents_add_audit_entry ts ts' _ _ _ a a' h⟩

/-- The frame facts shared by stage 11's paths: no result field at all is
written (`approval_status` and `confidence_score` are decision fields,
not per-stage result fields). -/
def FinalFrame (sys out : Sys) : Prop :=
  out.state.alerts = sys.state.alerts
  ∧ out.state.audit_trail = sys.state.audit_trail
  ∧ (∀ f, getField f out.state = getField f sys.state)
  ∧ (∃ t, out.agents.alerts = sys.agents.alerts ++ t)
  ∧ (∃ u, out.agents.audit_trail = sys.agents.audit_trail ++ u ∧ u.length ≤ 1)

theorem add_audit_entry_one (ts : Nat → String) (ag ac : String) (d : Json)
    (a : RxSentinelAgents) :
    ∃ u, (add_audit_entry ts ag ac d a).audit_trail = a.audit_trail ++ u ∧ u.length ≤ 1 :=
  ⟨[AuditEntry.mk ag ac (ts a.clock) d], rfl, by simp⟩

theorem add_audit_entry_alerts_app (ts : Nat → String) (ag ac : String) (d : Json)
    (a : RxSentinelAgents) :
    ∃ t, (add_audit_entry ts ag ac d a).alerts = a.alerts ++ t :=
  ⟨[], by simp [add_audit_entry]⟩

theorem agents_alerts_refl (a : RxSentinelAgents) : ∃ t, a.alerts = a.alerts ++ t :=
  ⟨[], by simp⟩

theorem agents_audit_refl (a : RxSentinelAgents) :
    ∃ u, a.audit_trail = a.audit_trail ++ u ∧ u.length ≤ 1 :=
  ⟨[], by simp⟩

theorem finalFail_frame (e : String) (ts : Nat → String) (sys sys2 : Sys)
    (h1 : sys2.state.alerts = sys.state.alerts)
    (h2 : sys2.state.audit_trail = sys.state.audit_trail)
    (h3 : ∀ f, getField f sys2.state = getField f sys.state)
    (h4 : ∃ t, sys2.agents.alerts = sys.agents.alerts ++ t)
    (h5 : ∃ u, sys2.agents.audit_trail = sys.agents.audit_trail ++ u ∧ u.length ≤ 1) :
    FinalFrame sys (finalReviewFail ts e sys2) := by
  obtain ⟨t, ht⟩ := h4
  obtain ⟨u, hu, hul⟩ := h5
  refine ⟨h1, h2, fun f => ?_, ?_, ?_⟩
  · have h3f := h3 f
    cases f <;> simp only [getField, finalReviewFail] at h3f ⊢ <;> exact h3f
  · refine ⟨t ++ [Alert.mk (.str "error") "FINAL_REVIEW"
      (.str ("Final review failed: " ++ e)) (.num 5) true (ts sys2.agents.clock)], ?_⟩
    simp [finalReviewFail, add_alert, ht]
  · exact ⟨u, by simp [finalReviewFail, add_alert, hu], hul⟩

theorem final_review_frame (ts : Nat → String) (r : Except String Json) (sys : Sys) :
    FinalFrame sys (final_review_agent ts r sys) := by
  unfold final_review_agent
  dsimp only
  repeat' split
  · exact finalFail_frame _ ts sys _ rfl rfl (fun f => by cases f <;> rfl)
      (agents_alerts_refl sys.agents) (agents_audit_refl sys.agents)
  · exact finalFail_frame _ ts sys _ rfl rfl (fun f => by cases f <;> rfl)
      (agents_alerts_refl sys.agents) (agents_audit_refl sys.agents)
  · exact finalFail_frame _ ts sys _ rfl rfl (fun f => by cases f <;> rfl)
      (agents_alerts_refl sys.agents) (agents_audit_refl sys.agents)
  · exact finalFail_frame _ ts sys _ rfl rfl (fun f => by cases f <;> rfl)
      (add_audit_entry_alerts_app ts _ _ _ sys.agents)
      (add_audit_entry_one ts _ _ _ sys.agents)
  · exact ⟨rfl, rfl, fun f => by cases f <;> rfl,
      add_audit_entry_alerts_app ts _ _ _ sys.agents,
      add_audit_entry_one ts _ _ _ sys.agents⟩

theorem final_review_noaudit (ts : Nat → String) (e : String) (sys : Sys) :
    (final_review_agent ts (.error e) sys).agents.audit_trail = sys.agents.audit_trail := by
  unfold final_review_agent
  dsimp only
  repeat' split
  all_goals rfl

theorem final_review_success (ts : Nat → String) (j : Json) (sys : Sys)
    (hpd : isObjB sys.state.prescription_data = true)
    (hgood : respGood .final_review j = true) :
    (∃ t, (final_review_agent ts (.ok j) sys).agents.audit_trail =
        sys.agents.audit_trail ++ [AuditEntry.mk "FINAL_REVIEW" "Review complete" t j])
  ∧ (∃ status conf, jget j "approval_status" = some status
      ∧ jget j "confidence_score" = some conf
      ∧ (final_review_agent ts (.ok j) sys).state.approval_status = status
      ∧ (final_review_agent ts (.ok j) sys).state.confidence_score = conf) := by
  match j, hgood with
  | .obj kvs, hgood =>
    simp only [respGood, Bool.and_eq_true, Option.isSome_iff_exists] at hgood
    obtain ⟨⟨status, hstatus⟩, conf, hconf⟩ := hgood
    have hia : dictItem (.obj kvs) "approval_status" = .ok status := by
      simp [dictItem, hstatus]
    have hic : dictItem (.obj kvs) "confidence_score" = .ok conf := by
      simp [dictItem, hconf]
    have hgetpd : dictGet sys.state.prescription_data "prescription_id" (.str "N/A") =
        .ok ((jget sys.state.prescription_data "prescription_id").getD (.str "N/A")) :=
      dictGet_of_isObj _ _ _ hpd
    unfold final_review_agent
    dsimp only
    rw [hgetpd]
    try dsimp only
    rw [hia]
    try dsimp only
    rw [hic]
    try dsimp only
    refine ⟨⟨ts sys.agents.clock, rfl⟩, status, conf, ?_, ?_, rfl, rfl⟩
    · simp [jget, hstatus]
    · simp [jget, hconf]

/-- Whether a final-review engine response conforms to its declared
schema: either the call failed, or it returned a dict mapping
`approval_status` to one of the three contract strings and
`confidence_score` to a number in [0,1]. -/
def finalConforming : Except String Json → Prop
  | .error _ => True
  | .ok j => ∃ kvs, j = .obj kvs
      ∧ (jlookup kvs "approval_status" = some (.str "approved")
        ∨ jlookup kvs "approval_status" = some (.str "rejected")
        ∨ jlookup kvs "approval_status" = some (.str "requires_review"))
      ∧ ∃ q : Rat, jlookup kvs "confidence_score" = some (.num q) ∧ 0 ≤ q ∧ q ≤ 1

theorem final_review_c5 (ts : Nat → String) (r : Except String Json) (sys : Sys)
    (h : finalConforming r) :
    ∃ q : Rat, (final_review_agent ts r sys).state.confidence_score = .num q
      ∧ 0 ≤ q ∧ q ≤ 1
      ∧ ((final_review_agent ts r sys).state.approval_status = .str "error" → q = 0) := by
  cases r with
  | error e =>
    refine ⟨0, ?_, le_refl 0, by norm_num, fun _ => rfl⟩
    unfold final_review_agent
    dsimp only
    repeat' split
    all_goals rfl
  | ok j =>
    obtain ⟨kvs, rfl, hstat, q, hconf, hq0, hq1⟩ := h
    have hia : ∃ s, dictItem (.obj kvs) "approval_status" = .ok (.str s)
        ∧ (s = "approved" ∨ s = "rejected" ∨ s = "requires_review") := by
      rcases hstat with h | h | h
      · exact ⟨"approved", by simp [dictItem, h], Or.inl rfl⟩
      · exact ⟨"rejected", by simp [dictItem, h], Or.inr (Or.inl rfl)⟩
      · exact ⟨"requires_review", by simp [dictItem, h], Or.inr (Or.inr rfl)⟩
    obtain ⟨s, hia, hs⟩ := hia
    have hic : dictItem (.obj kvs) "confidence_score" = .ok (.num q) := by
      simp [dictItem, hconf]
    unfold final_review_agent
    dsimp only
    cases hgp : dictGet sys.state.prescription_data "prescription_id" (.str "N/A") with
    | error e => exact ⟨0, rfl, le_refl 0, by norm_num, fun _ => rfl⟩
    | ok pid =>
      dsimp only
      rw [hia]
      dsimp only
      rw [hic]
      dsimp only
      refine ⟨q, rfl, hq0, hq1, fun hcontra => ?_⟩
      rcases hs with rfl | rfl | rfl <;> simp at hcontra

theorem final_review_det (ts ts' : Nat → String) (r : Except String Json)
    (a a' : RxSentinelAgents) (st : RxState) (h : scrubAgents a = scrubAgents a') :
    (final_review_agent ts r ⟨a, st⟩).state = (final_review_agent ts' r ⟨a', st⟩).state
  ∧ scrubAgents (final_review_agent ts r ⟨a, st⟩).agents =
      scrubAgents (final_review_agent ts' r ⟨a', st⟩).agents := by
  unfold final_review_agent finalReviewFail
  dsimp only
  repeat' split
  all_goals exact ⟨rfl, by first
    | exact scrubAgents_add_alert ts ts' _ _ _ _ _ a a' h
    | exact scrubAgents_add_audit_entry ts ts' _ _ _ a a' h
    | exact scrubAgents_add_alert ts ts' _ _ _ _ _ _ _
        (scrubAgents_add_audit_entry ts ts' _ _ _ a a' h)⟩

theorem midStage_noaudit (cfg : MidStageCfg) (ts : Nat → String) (e : String) (sys : Sys) :
    (midStage cfg ts (.error e) sys).agents.audit_trail = sys.agents.audit_trail := by
  unfold midStage
  dsimp only
  repeat' split
  all_goals rfl

theorem stage_noaudit (st : StageId) (ts : Nat → String) (e : String) (sys : Sys) :
    (runStage st ts (.error e) sys).agents.audit_trail = sys.agents.audit_trail := by
  cases st <;> first
    | exact midStage_noaudit _ ts e sys
    | exact ocr_noaudit ts e sys
    | exact case_summary_noaudit ts e sys
    | exact final_review_noaudit ts e sys

theorem setField_image_data (g : ResField) (st : RxState) (v : Json) :
    (setField g st v).image_data = st.image_data := by
  cases g <;> rfl

theorem midStage_image (cfg : MidStageCfg) (ts : Nat → String) (r : Except String Json)
    (sys : Sys) :
    (midStage cfg ts r sys).state.image_data = sys.state.image_data := by
  unfold midStage midStageResult midStageFinish midStageFail withHumanMsg
  dsimp only
  repeat' split
  all_goals rw [setField_image_data]

theorem stage_image (st : StageId) (ts : Nat → String) (r : Except String Json) (sys : Sys) :
    (runStage st ts r sys).state.image_data = sys.state.image_data := by
  cases st
  case ocr_nlp =>
    unfold runStage ocr_nlp_agent ocrFail
    dsimp only
    repeat' split
    all_goals rfl
  case case_summary =>
    unfold runStage case_summary_agent caseSummaryFail
    dsimp only
    repeat' split
    all_goals rfl
  case final_review =>
    unfold runStage final_review_agent finalReviewFail
    dsimp only
    repeat' split
    all_goals rfl
  all_goals exact midStage_image _ ts r sys

theorem stage_det (st : StageId) (ts ts' : Nat → String) (r : Except String Json)
    (a a' : RxSentinelAgents) (stt : RxState) (h : scrubAgents a = scrubAgents a') :
    (runStage st ts r ⟨a, stt⟩).state = (runStage st ts' r ⟨a', stt⟩).state
  ∧ scrubAgents (runStage st ts r ⟨a, stt⟩).agents =
      scrubAgents (runStage st ts' r ⟨a', stt⟩).agents := by
  cases st <;> first
    | exact midStage_det _ ts ts' r a a' stt h
    | exact ocr_det ts ts' r a a' stt h
    | exact case_summary_det ts ts' r a a' stt h
    | exact final_review_det ts ts' r a a' stt h

theorem midFrame_ledgers (cfg : MidStageCfg) (ts : Nat → String) (r : Except String Json)
    (sys : Sys) :
    (midStage cfg ts r sys).state.alerts = sys.state.alerts
  ∧ (midStage cfg ts r sys).state.audit_trail = sys.state.audit_trail
  ∧ (∃ t, (midStage cfg ts r sys).agents.alerts = sys.agents.alerts ++ t)
  ∧ (∃ u, (midStage cfg ts r sys).agents.audit_trail = sys.agents.audit_trail ++ u) := by
  obtain ⟨h1, h2, _, _, _, h6, ⟨u, hu, _⟩⟩ := midStage_frame cfg ts r sys
  exact ⟨h1, h2, h6, ⟨u, hu⟩⟩

theorem stage_ledgers (st : StageId) (ts : Nat → String) (r : Except String Json) (sys : Sys) :
    (runStage st ts r sys).state.alerts = sys.state.alerts
  ∧ (runStage st ts r sys).state.audit_trail = sys.state.audit_trail
  ∧ (∃ t, (runStage st ts r sys).agents.alerts = sys.agents.alerts ++ t)
  ∧ (∃ u, (runStage st ts r sys).agents.audit_trail = sys.agents.audit_trail ++ u) := by
  cases st
  case ocr_nlp =>
    obtain ⟨h1, h2, _, _, _, h6, ⟨u, hu, _⟩, _⟩ := ocr_frame ts r sys
    exact ⟨h1, h2, h6, ⟨u, hu⟩⟩
  case case_summary =>
    obtain ⟨h1, h2, _, _, _, h6, ⟨u, hu, _⟩⟩ := case_summary_frame ts r sys
    exact ⟨h1, h2, h6, ⟨u, hu⟩⟩
  case final_review =>
    obtain ⟨h1, h2, _, h6, ⟨u, hu, _⟩⟩ := final_review_frame ts r sys
    exact ⟨h1, h2, h6, ⟨u, hu⟩⟩
  all_goals exact midFrame_ledgers _ ts r sys

theorem invokeStages_ledgers (ts : Nat → String) (oracle : Nat → Except String Json) :
    ∀ (sts : List StageId) (i : Nat) (sys : Sys),
    (invokeStages ts oracle sts i sys).state.alerts = sys.state.alerts
  ∧ (invokeStages ts oracle sts i sys).state.audit_trail = sys.state.audit_trail
  ∧ (∃ t, (invokeStages ts oracle sts i sys).agents.alerts = sys.agents.alerts ++ t)
  ∧ (∃ u, (invokeStages ts oracle sts i sys).agents.audit_trail =
      sys.agents.audit_trail ++ u) := by
  intro sts
  induction sts with
  | nil => exact fun i sys => ⟨rfl, rfl, ⟨[], by simp [invokeStages]⟩, ⟨[], by simp [invokeStages]⟩⟩
  | cons s rest ih =>
    intro i sys
    obtain ⟨g1, g2, ⟨t1, ht1⟩, ⟨u1, hu1⟩⟩ := stage_ledgers s ts (oracle i) sys
    obtain ⟨k1, k2, ⟨t2, ht2⟩, ⟨u2, hu2⟩⟩ := ih (i + 1) (runStage s ts (oracle i) sys)
    refine ⟨?_, ?_, ⟨t1 ++ t2, ?_⟩, ⟨u1 ++ u2, ?_⟩⟩
    · rw [invokeStages, k1, g1]
    · rw [invokeStages, k2, g2]
    · rw [invokeStages, ht2, ht1, List.append_assoc]
    · rw [invokeStages, hu2, hu1, List.append_assoc]

theorem invokeStages_det (ts ts' : Nat → String) (oracle : Nat → Except String Json) :
    ∀ (sts : List StageId) (i : Nat) (a a' : RxSentinelAgents) (st : RxState),
    scrubAgents a = scrubAgents a' →
    (invokeStages ts oracle sts i ⟨a, st⟩).state = (invokeStages ts' oracle sts i ⟨a', st⟩).state
  ∧ scrubAgents (invokeStages ts oracle sts i ⟨a, st⟩).agents =
      scrubAgents (invokeStages ts' oracle sts i ⟨a', st⟩).agents := by
  intro sts
  induction sts with
  | nil => exact fun i a a' st h => ⟨rfl, h⟩
  | cons s rest ih =>
    intro i a a' st h
    obtain ⟨h1, h2⟩ := stage_det s ts ts' (oracle i) a a' st h
    simp only [invokeStages]
    have hy : runStage s ts' (oracle i) ⟨a', st⟩ =
        (⟨(runStage s ts' (oracle i) ⟨a', st⟩).agents,
          (runStage s ts (oracle i) ⟨a, st⟩).state⟩ : Sys) := by
      rw [h1]
    rw [hy]
    exact ih (i + 1) _ _ _ h2

theorem respAlertsOk_isObj (j : Json) (h : respAlertsOk j = true) : isObjB j = true := by
  cases j <;> simp_all [respAlertsOk, isObjB]

theorem status_post_ok (j : Json) (key : String) (mkc : String → String)
    (hj : isObjB j = true) :
    ∃ c, (dictGet j key (.str "unknown")).map (fun status => mkc (pyStr status)) =
      Except.ok c := by
  obtain ⟨kvs, rfl⟩ : ∃ kvs, j = .obj kvs := by cases j <;> simp_all [isObjB]
  exact ⟨mkc (pyStr ((jlookup kvs key).getD (.str "unknown"))), rfl⟩

theorem lenKey_post_ok (j : Json) (key : String) (mkc : Nat → String)
    (hj : isObjB j = true) (hk : keyLenOk j key = true) :
    ∃ c, (match dictGet j key (.arr []) with
      | .error e => Except.error e
      | .ok found => (pyLen found).map mkc) = Except.ok c := by
  obtain ⟨kvs, rfl⟩ : ∃ kvs, j = .obj kvs := by cases j <;> simp_all [isObjB]
  have hv : lenable ((jlookup kvs key).getD (.arr [])) = true := by
    simp only [keyLenOk] at hk
    cases hl : jlookup kvs key with
    | none => rfl
    | some v => rw [hl] at hk; exact hk
  obtain ⟨n, hn⟩ := lenable_pyLen _ hv
  refine ⟨mkc n, ?_⟩
  have hrw : dictGet (Json.obj kvs) key (.arr []) =
      .ok ((jlookup kvs key).getD (.arr [])) := rfl
  rw [hrw]
  dsimp only
  rw [hn]
  rfl

theorem stage_success_audit (st : StageId) (ts : Nat → String) (j : Json) (sys : Sys)
    (hpd : isObjB sys.state.prescription_data = true)
    (himg : ∃ xs, sys.state.image_data = Json.arr xs)
    (hgood : respGood st j = true) :
    ∃ u, (runStage st ts (.ok j) sys).agents.audit_trail = sys.agents.audit_trail ++ u
      ∧ u.length = 1 := by
  cases st
  case ocr_nlp =>
    obtain ⟨t, pd, hu⟩ := ocr_success ts j sys hgood himg
    exact ⟨_, hu, rfl⟩
  case case_summary =>
    obtain ⟨t, hu⟩ := case_summary_success ts j sys hgood
    exact ⟨_, hu, rfl⟩
  case final_review =>
    obtain ⟨⟨t, hu⟩, _⟩ := final_review_success ts j sys hpd hgood
    exact ⟨_, hu, rfl⟩
  case license_verification =>
    obtain ⟨c, hc⟩ := status_post_ok j "license_status"
      (fun s => "License verification complete. Status: " ++ s)
      (respAlertsOk_isObj j hgood)
    obtain ⟨⟨t, hu⟩, _⟩ := midStage_success license_verification_cfg ts j sys c hpd hgood hc
    exact ⟨_, hu, rfl⟩
  case state_compliance =>
    obtain ⟨c, hc⟩ := status_post_ok j "compliance_status"
      (fun s => "State compliance check complete. Status: " ++ s)
      (respAlertsOk_isObj j hgood)
    obtain ⟨⟨t, hu⟩, _⟩ := midStage_success state_compliance_cfg ts j sys c hpd hgood hc
    exact ⟨_, hu, rfl⟩
  case compounding_compliance =>
    obtain ⟨c, hc⟩ := status_post_ok j "compliance_status"
      (fun s => "Compounding compliance check complete. Status: " ++ s)
      (respAlertsOk_isObj j hgood)
    obtain ⟨⟨t, hu⟩, _⟩ := midStage_success compounding_compliance_cfg ts j sys c hpd hgood hc
    exact ⟨_, hu, rfl⟩
  case clinical_documentation =>
    obtain ⟨c, hc⟩ := status_post_ok j "compliance_status"
      (fun s => "Compounding compliance check complete. Status: " ++ s)
      (respAlertsOk_isObj j hgood)
    obtain ⟨⟨t, hu⟩, _⟩ := midStage_success clinical_documentation_cfg ts j sys c hpd hgood hc
    exact ⟨_, hu, rfl⟩
  case dea_verification =>
    simp only [respGood, Bool.and_eq_true] at hgood
    obtain ⟨ha, hk⟩ := hgood
    obtain ⟨c, hc⟩ := lenKey_post_ok j "controlled_substances_found"
      (fun n => "DEA verification complete. Found " ++ toString n ++ " controlled substances.")
      (respAlertsOk_isObj j ha) hk
    obtain ⟨⟨t, hu⟩, _⟩ := midStage_success dea_verification_cfg ts j sys c hpd ha hc
    exact ⟨_, hu, rfl⟩
  case controlled_substance =>
    simp only [respGood, Bool.and_eq_true] at hgood
    obtain ⟨ha, hk⟩ := hgood
    obtain ⟨c, hc⟩ := lenKey_post_ok j "controlled_substances"
      (fun n => "Controlled substance monitoring complete. Found " ++ toString n ++ " controlled substances.")
      (respAlertsOk_isObj j ha) hk
    obtain ⟨⟨t, hu⟩, _⟩ := midStage_success controlled_substance_cfg ts j sys c hpd ha hc
    exact ⟨_, hu, rfl⟩
  case dosage_monitoring =>
    simp only [respGood, Bool.and_eq_true] at hgood
    obtain ⟨ha, hk⟩ := hgood
    obtain ⟨c, hc⟩ := lenKey_post_ok j "dosage_alerts"
      (fun n => "Dosage monitoring complete. Found " ++ toString n ++ " dosage alerts.")
      (respAlertsOk_isObj j ha) hk
    obtain ⟨⟨t, hu⟩, _⟩ := midStage_success dosage_monitoring_cfg ts j sys c hpd ha hc
    exact ⟨_, hu, rfl⟩
  case bud_validation =>
    simp only [respGood, Bool.and_eq_true] at hgood
    obtain ⟨ha, hk⟩ := hgood
    obtain ⟨c, hc⟩ := lenKey_post_ok j "bud_alerts"
      (fun n => "BUD validation complete. Found " ++ toString n ++ " BUD alerts.")
      (respAlertsOk_isObj j ha) hk
    obtain ⟨⟨t, hu⟩, _⟩ := midStage_success bud_validation_cfg ts j sys c hpd ha hc
    exact ⟨_, hu, rfl⟩

theorem midStage_keeps_pd (cfg : MidStageCfg) (hne : cfg.designate ≠ ResField.prescription_data)
    (ts : Nat → String) (r : Except String Json) (sys : Sys)
    (hpd : isObjB sys.state.prescription_data = true) :
    isObjB (midStage cfg ts r sys).state.prescription_data = true := by
  obtain ⟨_, _, _, _, h5, _, _⟩ := midStage_frame cfg ts r sys
  have hh := h5 .prescription_data (fun h => hne h.symm)
  rw [show (midStage cfg ts r sys).state.prescription_data =
      getField .prescription_data (midStage cfg ts r sys).state from rfl, hh]
  exact hpd

theorem stage_keeps_pd_obj (st : StageId) (ts : Nat → String) (r : Except String Json)
    (sys : Sys) (hpd : isObjB sys.state.prescription_data = true) :
    isObjB (runStage st ts r sys).state.prescription_data = true := by
  cases st
  case ocr_nlp => exact (ocr_frame ts r sys).2.2.2.2.2.2.2
  case case_summary =>
    obtain ⟨_, _, _, _, h5, _, _⟩ := case_summary_frame ts r sys
    have hh := h5 .prescription_data (by decide)
    rw [show (runStage .case_summary ts r sys).state.prescription_data =
        getField .prescription_data (case_summary_agent ts r sys).state from rfl, hh]
    exact hpd
  case final_review =>
    obtain ⟨_, _, h3, _, _⟩ := final_review_frame ts r sys
    have hh := h3 .prescription_data
    rw [show (runStage .final_review ts r sys).state.prescription_data =
        getField .prescription_data (final_review_agent ts r sys).state from rfl, hh]
    exact hpd
  all_goals exact midStage_keeps_pd _ (by decide) ts r sys hpd

theorem invokeStages_audit_len_ok (ts : Nat → String) (oracle : Nat → Except String Json) :
    ∀ (sts : List StageId) (i : Nat) (sys : Sys),
    isObjB sys.state.prescription_data = true →
    (∃ xs, sys.state.image_data = Json.arr xs) →
    (∀ k, k < sts.length → ∃ j, oracle (i + k) = .ok j
        ∧ respGood (sts.getD k .ocr_nlp) j = true) →
    (invokeStages ts oracle sts i sys).agents.audit_trail.length =
      sys.agents.audit_trail.length + sts.length := by
  intro sts
  induction sts with
  | nil =>
    intro i sys _ _ _
    simp [invokeStages]
  | cons s rest ih =>
    intro i sys hpd himg hall
    obtain ⟨j, hj, hgood⟩ := hall 0 (by simp)
    rw [Nat.add_zero] at hj
    simp only [List.getD_cons_zero] at hgood
    simp only [invokeStages]
    rw [hj]
    obtain ⟨u, hu, hul⟩ := stage_success_audit s ts j sys hpd himg hgood
    have hpd2 := stage_keeps_pd_obj s ts (.ok j) sys hpd
    have himg2 : ∃ xs, (runStage s ts (.ok j) sys).state.image_data = Json.arr xs := by
      obtain ⟨xs, hxs⟩ := himg
      exact ⟨xs, by rw [stage_image, hxs]⟩
    have hall2 : ∀ k, k < rest.length → ∃ j2, oracle (i + 1 + k) = .ok j2
        ∧ respGood (rest.getD k .ocr_nlp) j2 = true := by
      intro k hk
      have := hall (k + 1) (by simpa using Nat.succ_lt_succ hk)
      simpa [Nat.add_assoc, Nat.add_comm 1 k, List.getD_cons_succ] using this
    rw [ih (i + 1) _ hpd2 himg2 hall2, hu]
    simp [hul]
    omega

/-- A constant timestamp source for concrete runs. -/
def ts0 : Nat → String := fun _ => "2025-01-01T00:00:00"

/-- An engine-response sequence on which every stage succeeds. -/
def goodOracle : Nat → Except String Json := fun i =>
  if i = 0 then .ok (.obj [("Doctor Info", .obj [])])
  else if i = 10 then .ok (.obj [("approval_status", .str "approved"),
    ("confidence_score", .num 1)])
  else .ok (.obj [])

/-- Like `goodOracle`, but the license-verification call fails in transport. -/
def badOracle : Nat → Except String Json := fun i =>
  if i = 1 then .error "connection refused" else goodOracle i

/-- C8: the orchestrator built by `create_workflow` runs the eleven stages
in the one fixed linear order (extraction, license, DEA, state compliance,
controlled substance, dosage, BUD, compounding, clinical documentation,
case summary, final review) with unconditional transitions: for every
timestamp source, every oracle — including ones whose calls fail — and
every starting state, the run equals the sequential composition of the
eleven stage functions in that order, each stage starting from exactly the
state the previous stage returned. -/
theorem C8_fixed_linear_order (ts : Nat → String) (oracle : Nat → Except String Json)
    (sys : Sys) :
    create_workflow = [.ocr_nlp, .license_verification, .dea_verification, .state_compliance,
      .controlled_substance, .dosage_monitoring, .bud_validation, .compounding_compliance,
      .clinical_documentation, .case_summary, .final_review]
  ∧ workflowInvoke ts oracle sys =
      final_review_agent ts (oracle 10)
        (case_summary_agent ts (oracle 9)
          (clinical_documentation_agent ts (oracle 8)
            (compounding_compliance_agent ts (oracle 7)
              (bud_validation_agent ts (oracle 6)
                (dosage_monitoring_agent ts (oracle 5)
                  (controlled_substance_agent ts (oracle 4)
                    (state_compliance_agent ts (oracle 3)
                      (dea_verification_agent ts (oracle 2)
                        (license_verification_agent ts (oracle 1)
                          (ocr_nlp_agent ts (oracle 0) sys)))))))))) :=
  ⟨rfl, rfl⟩

/-- C4: every alert and audit entry of a run is appended only to the
instance ledgers `self.alerts` / `self.audit_trail`; the Pipeline State's
`alerts` and `audit_trail` fields keep their initial values in the
returned state; the instance ledgers persist and keep growing across a
second run on the same instance; and `reset_session` clears them. -/
theorem C4_instance_ledgers (ts ts2 : Nat → String)
    (oracle oracle2 : Nat → Except String Json) (sys : Sys) :
    (workflowInvoke ts oracle sys).state.alerts = sys.state.alerts
  ∧ (workflowInvoke ts oracle sys).state.audit_trail = sys.state.audit_trail
  ∧ (∃ t, (workflowInvoke ts oracle sys).agents.alerts = sys.agents.alerts ++ t)
  ∧ (∃ u, (workflowInvoke ts oracle sys).agents.audit_trail = sys.agents.audit_trail ++ u)
  ∧ (∃ t2, (workflowInvoke ts2 oracle2 (workflowInvoke ts oracle sys)).agents.alerts =
      (workflowInvoke ts oracle sys).agents.alerts ++ t2)
  ∧ (reset_session (workflowInvoke ts oracle sys).agents).alerts = []
  ∧ (reset_session (workflowInvoke ts oracle sys).agents).audit_trail = [] := by
  obtain ⟨h1, h2, h3, h4⟩ := invokeStages_ledgers ts oracle create_workflow 0 sys
  obtain ⟨k1, k2, k3, k4⟩ :=
    invokeStages_ledgers ts2 oracle2 create_workflow 0 (workflowInvoke ts oracle sys)
  exact ⟨h1, h2, h3, h4, k3, rfl, rfl⟩

theorem midStage_designate_written (cfg : MidStageCfg) (ts : Nat → String)
    (resp : Except String Json) (sys : Sys) :
    (∃ m, getField cfg.designate (midStage cfg ts resp sys).state = errObj m)
  ∨ (∃ j, resp = .ok j ∧ getField cfg.designate (midStage cfg ts resp sys).state = j) := by
  unfold midStage midStageResult midStageFinish midStageFail
  dsimp only
  repeat' split
  all_goals first
    | exact Or.inl ⟨_, getField_setField_eq _ _ _⟩
    | exact Or.inr ⟨_, rfl, getField_setField_eq _ _ _⟩

/-- C6 evidence: stage 9 (`clinical_documentation_agent`) leaves the
`clinical_documentation` field untouched on every path and instead stores
its outcome — the engine result on success, the `{"error": …}` record on
failure — in stage 8's `compounding_compliance` field. -/
theorem C6_clinical_documentation_misdirected (ts : Nat → String)
    (resp : Except String Json) (sys : Sys) :
    (clinical_documentation_agent ts resp sys).state.clinical_documentation
      = sys.state.clinical_documentation
  ∧ ((∃ m, (clinical_documentation_agent ts resp sys).state.compounding_compliance = errObj m)
      ∨ (∃ j, resp = .ok j
          ∧ (clinical_documentation_agent ts resp sys).state.compounding_compliance = j)) := by
  constructor
  · obtain ⟨_, _, _, _, h5, _, _⟩ := midStage_frame clinical_documentation_cfg ts resp sys
    exact h5 .clinical_documentation (by decide)
  · exact midStage_designate_written clinical_documentation_cfg ts resp sys

/-- A Schedule-II controlled medication as extracted by stage 1. -/
def medScheduleII : Json :=
  .obj [("Name", .str "OXYCODONE"), ("Is Controlled", .bool true),
        ("Controlled Schedule", .str "Schedule II")]

/-- A stage-5 engine response whose Schedule-II entry carries
`max_refills_allowed` 3 — legal JSON the code stores verbatim. -/
def respC7 : Json :=
  .obj [("controlled_substances", .arr [.obj [("name", .str "OXYCODONE"),
          ("schedule", .str "Schedule II"), ("max_refills_allowed", .num 3)]]),
        ("dea_authority_verified", .bool true)]

/-- A system whose prescription data holds the Schedule-II medication. -/
def sysC7 : Sys :=
  { agents := mkRxSentinelAgents,
    state := { initialRxState ["img"] with
      prescription_data := .obj [("Medications", .arr [medScheduleII])] } }

/-- C7 counterexample: with a medication flagged controlled, Schedule II,
the controlled-substance stage stores the engine response verbatim, so its
entry's `max_refills_allowed` is 3, not the static table's 0 — the static
lookup `_get_max_refills_for_schedule` is never consulted by the stage. -/
theorem C7_counterexample :
    dictItem medScheduleII "Is Controlled" = .ok (.bool true)
  ∧ dictItem medScheduleII "Controlled Schedule" = .ok (.str "Schedule II")
  ∧ (controlled_substance_agent ts0 (.ok respC7) sysC7).state.controlled_substance_check
      = respC7
  ∧ jget respC7 "controlled_substances" = some (.arr [.obj [("name", .str "OXYCODONE"),
        ("schedule", .str "Schedule II"), ("max_refills_allowed", .num 3)]])
  ∧ Json.num 3 ≠ Json.num 0 := by
  refine ⟨rfl, rfl, rfl, rfl, ?_⟩
  intro h
  injection h with h
  norm_num at h

/-- C7 amended: the static schedule lookup maps Schedule II to 0 and
Schedules III–V to 5, but the stage's per-entry `max_refills_allowed`
is whatever the engine returned: on a successful call the stage stores
the response verbatim, without consulting the table. -/
theorem C7_schedule_refill_table (ts : Nat → String) (j : Json) (sys : Sys)
    (hpd : isObjB sys.state.prescription_data = true)
    (hgood : respGood .controlled_substance j = true) :
    get_max_refills_for_schedule "Schedule II" = 0
  ∧ get_max_refills_for_schedule "Schedule III" = 5
  ∧ get_max_refills_for_schedule "Schedule IV" = 5
  ∧ get_max_refills_for_schedule "Schedule V" = 5
  ∧ (controlled_substance_agent ts (.ok j) sys).state.controlled_substance_check = j := by
  refine ⟨rfl, rfl, rfl, rfl, ?_⟩
  simp only [respGood, Bool.and_eq_true] at hgood
  obtain ⟨ha, hk⟩ := hgood
  obtain ⟨c, hc⟩ := lenKey_post_ok j "controlled_substances"
    (fun n => "Controlled substance monitoring complete. Found " ++ toString n ++ " controlled substances.")
    (respAlertsOk_isObj j ha) hk
  exact (midStage_success controlled_substance_cfg ts j sys c hpd ha hc).2

/-- C7 witness: a concrete successful stage-5 run stores the concrete
response verbatim, and the static table yields 0 for Schedule II. -/
theorem C7_witness :
    (controlled_substance_agent ts0 (.ok respC7) sysC7).state.controlled_substance_check = respC7
  ∧ get_max_refills_for_schedule "Schedule II" = 0 :=
  ⟨(C7_schedule_refill_table ts0 respC7 sysC7 rfl rfl).2.2.2.2,
   (C7_schedule_refill_table ts0 respC7 sysC7 rfl rfl).1⟩

/-- C10 counterexample: `_parse_duration_to_days` returns 0 — not a
positive integer — on the input `"0 days"`. -/
theorem C10_counterexample :
    parse_duration_to_days "0 days" = 0 ∧ ¬ 0 < parse_duration_to_days "0 days" :=
  ⟨rfl, by decide⟩

/-- C10 amended: the duration parser returns a non-negative integer: the
first occurrence of `<number> day|week|month` (case-insensitive) yields
that number of days, weeks times 7, months times 30; it returns the
default 30 when no such pattern occurs (in particular on the empty
string); and the result is 0 exactly when the first matched number is 0. -/
theorem C10_parse_duration (s : String) :
    (reSearchDuration (pyLowerStr s).data = none → parse_duration_to_days s = 30)
  ∧ (∀ n, reSearchDuration (pyLowerStr s).data = some (n, .day) → parse_duration_to_days s = n)
  ∧ (∀ n, reSearchDuration (pyLowerStr s).data = some (n, .week) →
      parse_duration_to_days s = n * 7)
  ∧ (∀ n, reSearchDuration (pyLowerStr s).data = some (n, .month) →
      parse_duration_to_days s = n * 30)
  ∧ (parse_duration_to_days s = 0 ↔ ∃ u, reSearchDuration (pyLowerStr s).data = some (0, u)) := by
  by_cases hs : s = ""
  · subst hs
    have hnone : reSearchDuration (pyLowerStr "").data = none := rfl
    refine ⟨fun _ => rfl, ?_, ?_, ?_, ?_⟩
    · intro n h; rw [hnone] at h; cases h
    · intro n h; rw [hnone] at h; cases h
    · intro n h; rw [hnone] at h; cases h
    · constructor
      · intro h; cases h
      · rintro ⟨u, hu⟩; rw [hnone] at hu; cases hu
  · unfold parse_duration_to_days
    rw [if_neg hs]
    cases hm : reSearchDuration (pyLowerStr s).data with
    | none =>
      refine ⟨fun _ => rfl, ?_, ?_, ?_, ?_⟩
      · exact fun n h => Option.noConfusion h
      · exact fun n h => Option.noConfusion h
      · exact fun n h => Option.noConfusion h
      · constructor
        · intro h; cases h
        · rintro ⟨u, hu⟩; cases hu
    | some p =>
      obtain ⟨n, u⟩ := p
      cases u with
      | day =>
        dsimp only
        refine ⟨fun h => Option.noConfusion h, ?_, ?_, ?_, ?_⟩
        · intro n2 h
          simp only [Option.some.injEq, Prod.mk.injEq, and_true] at h
          exact h
        · intro n2 h
          simp at h
        · intro n2 h
          simp at h
        · constructor
          · intro h0; exact ⟨.day, by rw [h0]⟩
          · rintro ⟨u2, hu⟩
            simp only [Option.some.injEq, Prod.mk.injEq] at hu
            obtain ⟨h1, -⟩ := hu
            exact h1
      | week =>
        dsimp only
        refine ⟨fun h => Option.noConfusion h, ?_, ?_, ?_, ?_⟩
        · intro n2 h
          simp at h
        · intro n2 h
          simp only [Option.some.injEq, Prod.mk.injEq, and_true] at h
          rw [h]
        · intro n2 h
          simp at h
        · constructor
          · intro h0
            have hz : n = 0 := by omega
            exact ⟨.week, by rw [hz]⟩
          · rintro ⟨u2, hu⟩
            simp only [Option.some.injEq, Prod.mk.injEq] at hu
            obtain ⟨h1, -⟩ := hu
            simp [h1]
      | month =>
        dsimp only
        refine ⟨fun h => Option.noConfusion h, ?_, ?_, ?_, ?_⟩
        · intro n2 h
          simp at h
        · intro n2 h
          simp at h
        · intro n2 h
          simp only [Option.some.injEq, Prod.mk.injEq, and_true] at h
          rw [h]
        · constructor
          · intro h0
            have hz : n = 0 := by omega
            exact ⟨.month, by rw [hz]⟩
          · rintro ⟨u2, hu⟩
            simp only [Option.some.injEq, Prod.mk.injEq] at hu
            obtain ⟨h1, -⟩ := hu
            simp [h1]

/-- C10 witness: the amended characterization at concrete inputs. -/
theorem C10_witness :
    parse_duration_to_days "2 weeks" = 2 * 7 ∧ parse_duration_to_days "take daily" = 30 :=
  ⟨(C10_parse_duration "2 weeks").2.2.1 2 rfl,
   (C10_parse_duration "take daily").1 rfl⟩

/-- The stage data of each middle stage (identity used by C1's statement;
other stages get an arbitrary value, never used). -/
def midCfgOf : StageId → MidStageCfg
  | .license_verification => license_verification_cfg
  | .dea_verification => dea_verification_cfg
  | .state_compliance => state_compliance_cfg
  | .controlled_substance => controlled_substance_cfg
  | .dosage_monitoring => dosage_monitoring_cfg
  | .bud_validation => bud_validation_cfg
  | .compounding_compliance => compounding_compliance_cfg
  | .clinical_documentation => clinical_documentation_cfg
  | _ => license_verification_cfg

theorem append_ne_empty_left (s t : String) (hs : s ≠ "") : s ++ t ≠ "" := by
  intro h
  apply hs
  obtain ⟨a⟩ := s
  obtain ⟨b⟩ := t
  have hd : a ++ b = [] := congrArg String.data h
  have ha : a = [] := (List.append_eq_nil.mp hd).1
  rw [ha]

theorem midStage_error_full (cfg : MidStageCfg) (ts : Nat → String) (e : String) (sys : Sys)
    (hpd : isObjB sys.state.prescription_data = true) :
    (midStage cfg ts (.error e) sys).agents.alerts = sys.agents.alerts ++
      [Alert.mk (.str "error") cfg.category (.str (cfg.failMsgHead ++ e)) (.num 4) true
        (ts sys.agents.clock)]
  ∧ (midStage cfg ts (.error e) sys).agents.audit_trail = sys.agents.audit_trail
  ∧ getField cfg.designate (midStage cfg ts (.error e) sys).state = errObj e
  ∧ (∀ f, f ≠ cfg.designate → getField f (midStage cfg ts (.error e) sys).state
      = getField f sys.state)
  ∧ (midStage cfg ts (.error e) sys).state.alerts = sys.state.alerts
  ∧ (midStage cfg ts (.error e) sys).state.audit_trail = sys.state.audit_trail
  ∧ (midStage cfg ts (.error e) sys).state.approval_status = sys.state.approval_status
  ∧ (midStage cfg ts (.error e) sys).state.confidence_score = sys.state.confidence_score := by
  obtain ⟨vals, hv, heq⟩ := midStage_error_case cfg ts e sys hpd
  rw [heq]
  refine ⟨?_, rfl, getField_setField_eq _ _ _, ?_, ?_, ?_, ?_, ?_⟩
  · simp [midStageFail, add_alert, withHumanMsg]
  · intro f hf
    rw [midStageFail_state, getField_setField_ne f _ _ _ hf, withHumanMsg_getField]
  · rw [midStageFail_state, setField_alerts]; rfl
  · rw [midStageFail_state, setField_audit_trail]; rfl
  · rw [midStageFail_state, setField_approval_status]; rfl
  · rw [midStageFail_state, setField_confidence_score]; rfl

/-- C1 amended: for each of stages 2–9 (license, DEA, state compliance,
controlled substance, dosage, BUD, compounding, clinical documentation),
a reasoning-call failure is caught locally: the stage appends exactly one
Alert with kind `error`, severity 4, `requires_human_review = true` and a
non-empty message, writes `{"error": str(e)}` into its designated field,
records no audit entry, leaves every other result field, the state
ledgers and the decision fields unchanged (only the conversation log
gains the pre-call human message), and returns normally.  Stage 1 resets
`prescription_data` to `{}` instead of an error record (see the
counterexample), stage 10 stores a failure string, and stage 11 sets the
decision fields. -/
theorem C1_stage_failure_isolation (st : StageId) (ts : Nat → String) (e : String) (sys : Sys)
    (hst : st ∈ [StageId.license_verification, .dea_verification, .state_compliance,
      .controlled_substance, .dosage_monitoring, .bud_validation,
      .compounding_compliance, .clinical_documentation])
    (hpd : isObjB sys.state.prescription_data = true) :
    (runStage st ts (.error e) sys).agents.alerts = sys.agents.alerts ++
      [Alert.mk (.str "error") (midCfgOf st).category
        (.str ((midCfgOf st).failMsgHead ++ e)) (.num 4) true (ts sys.agents.clock)]
  ∧ (runStage st ts (.error e) sys).agents.audit_trail = sys.agents.audit_trail
  ∧ getField (midCfgOf st).designate (runStage st ts (.error e) sys).state = errObj e
  ∧ (∀ f, f ≠ (midCfgOf st).designate →
      getField f (runStage st ts (.error e) sys).state = getField f sys.state)
  ∧ (runStage st ts (.error e) sys).state.alerts = sys.state.alerts
  ∧ (runStage st ts (.error e) sys).state.audit_trail = sys.state.audit_trail
  ∧ (runStage st ts (.error e) sys).state.approval_status = sys.state.approval_status
  ∧ (runStage st ts (.error e) sys).state.confidence_score = sys.state.confidence_score
  ∧ (midCfgOf st).failMsgHead ++ e ≠ "" := by
  fin_cases hst <;>
    exact (fun h => ⟨h.1, h.2.1, h.2.2.1, h.2.2.2.1, h.2.2.2.2.1, h.2.2.2.2.2.1,
        h.2.2.2.2.2.2.1, h.2.2.2.2.2.2.2, append_ne_empty_left _ e (by decide)⟩)
      (midStage_error_full _ ts e sys hpd)

/-- C1 witness: the amended statement at a concrete transport failure of
the license-verification stage. -/
theorem C1_witness :
    (runStage .license_verification ts0 (.error "boom") (initSys ["img"])).agents.alerts =
      (initSys ["img"]).agents.alerts ++
        [Alert.mk (.str "error") (midCfgOf .license_verification).category
          (.str ((midCfgOf .license_verification).failMsgHead ++ "boom")) (.num 4) true
          (ts0 (initSys ["img"]).agents.clock)] :=
  (C1_stage_failure_isolation .license_verification ts0 "boom" (initSys ["img"])
    (by decide) rfl).1

/-- C1 counterexample: on a transport failure in stage 1 (OCR), the
designated field `prescription_data` is set to the empty dict, which is
not the `{"error": <message>}` record the claim requires of every stage
(the handler's message would be the exception text `"transport down"`). -/
theorem C1_counterexample :
    (ocr_nlp_agent ts0 (.error "transport down") (initSys ["img"])).state.prescription_data
      = Json.obj []
  ∧ Json.obj [] ≠ errObj "transport down" := by
  refine ⟨rfl, ?_⟩
  intro h
  unfold errObj at h
  injection h with h1
  exact List.noConfusion h1

/-- C2 amended: an audit entry is recorded per stage only when the stage
completes its result processing: every stage whose reasoning call fails
records none (second conjunct), and on a run where every call returns a
well-formed response all eleven stages record exactly one entry each, so
the ledger length is 11. -/
theorem C2_audit_ledger (ts : Nat → String) (oracle : Nat → Except String Json)
    (images : List String)
    (hgood : ∀ k, k < 11 → ∃ j, oracle k = .ok j
        ∧ respGood (create_workflow.getD k .ocr_nlp) j = true) :
    (workflowInvoke ts oracle (initSys images)).agents.audit_trail.length = 11
  ∧ (∀ (st : StageId) (ts2 : Nat → String) (e : String) (sys : Sys),
      (runStage st ts2 (.error e) sys).agents.audit_trail = sys.agents.audit_trail) := by
  constructor
  · have hall : ∀ k, k < create_workflow.length → ∃ j, oracle (0 + k) = .ok j
        ∧ respGood (create_workflow.getD k .ocr_nlp) j = true := by
      intro k hk
      rw [Nat.zero_add]
      exact hgood k (by simpa using hk)
    have := invokeStages_audit_len_ok ts oracle create_workflow 0 (initSys images) rfl
      ⟨images.map Json.str, rfl⟩ hall
    simpa [initSys, mkRxSentinelAgents, create_workflow] using this
  · exact stage_noaudit

/-- C2 witness: a run on which all eleven calls return well-formed
responses yields an 11-entry audit ledger. -/
theorem C2_witness :
    (workflowInvoke ts0 goodOracle (initSys ["img"])).agents.audit_trail.length = 11 :=
  (C2_audit_ledger ts0 goodOracle ["img"]
    (by intro k hk; interval_cases k <;> exact ⟨_, rfl, rfl⟩)).1

/-- C2 counterexample: with the license-verification call failing in
transport and every other call well-formed, all eleven stages run (the
license field holds the handled error, the downstream DEA field holds its
engine result) but the Audit Ledger has 10 entries, not 11: failed stages
record no audit entry. -/
theorem C2_counterexample :
    (workflowInvoke ts0 badOracle (initSys ["img"])).agents.audit_trail.length = 10
  ∧ (workflowInvoke ts0 badOracle (initSys ["img"])).state.license_verification
      = errObj "connection refused"
  ∧ (workflowInvoke ts0 badOracle (initSys ["img"])).state.dea_verification = Json.obj []
  ∧ (10 : Nat) ≠ 11 := by
  refine ⟨rfl, rfl, rfl, by decide⟩

theorem categoryCount_of_scrub (l1 l2 : List Alert)
    (h : l1.map scrubAlert = l2.map scrubAlert) (c : String) :
    categoryCount l1 c = categoryCount l2 c := by
  have key : ∀ l : List Alert, categoryCount l c = categoryCount (l.map scrubAlert) c := by
    intro l
    unfold categoryCount
    rw [List.filter_map, List.length_map]
    congr 1
  rw [key l1, key l2, h]

/-- C9: with the engine-response sequence fixed, two runs over the same
input — each on a fresh instance, as `main` builds one per run — agree on
`approval_status`, on `confidence_score`, and on the number of alerts of
every category; only the timestamps the two runs sample may differ. -/
theorem C9_deterministic_replay (ts1 ts2 : Nat → String)
    (oracle : Nat → Except String Json) (images : List String) :
    (workflowInvoke ts1 oracle (initSys images)).state.approval_status
      = (workflowInvoke ts2 oracle (initSys images)).state.approval_status
  ∧ (workflowInvoke ts1 oracle (initSys images)).state.confidence_score
      = (workflowInvoke ts2 oracle (initSys images)).state.confidence_score
  ∧ ∀ c, categoryCount (workflowInvoke ts1 oracle (initSys images)).agents.alerts c
      = categoryCount (workflowInvoke ts2 oracle (initSys images)).agents.alerts c := by
  obtain ⟨h1, h2⟩ := invokeStages_det ts1 ts2 oracle create_workflow 0
    mkRxSentinelAgents mkRxSentinelAgents (initialRxState images) rfl
  refine ⟨congrArg RxState.approval_status h1, congrArg RxState.confidence_score h1, ?_⟩
  intro c
  exact categoryCount_of_scrub _ _ (congrArg RxSentinelAgents.alerts h2) c

theorem workflowInvoke_last (ts : Nat → String) (oracle : Nat → Except String Json)
    (sys : Sys) :
    workflowInvoke ts oracle sys = final_review_agent ts (oracle 10)
      (invokeStages ts oracle [StageId.ocr_nlp, .license_verification, .dea_verification,
        .state_compliance, .controlled_substance, .dosage_monitoring, .bud_validation,
        .compounding_compliance, .clinical_documentation, .case_summary] 0 sys) := rfl

/-- C5 amended: when the final-review call either fails or returns a
schema-conforming response (status one of the three contract strings,
confidence a number in [0,1]) the final `confidence_score` lies in [0,1]
and is 0 whenever `approval_status` is "error" — in particular a failed
final review forces "error"/0; `main`'s synthetic error result also
carries "error"/0.  Without the conformance assumption the bound fails:
stage 11 stores the engine's number unchecked (see the counterexample). -/
theorem C5_confidence_bounds (ts : Nat → String) (oracle : Nat → Except String Json)
    (images : List String) (h : finalConforming (oracle 10)) :
    (∃ q : Rat, (workflowInvoke ts oracle (initSys images)).state.confidence_score = .num q
      ∧ 0 ≤ q ∧ q ≤ 1
      ∧ ((workflowInvoke ts oracle (initSys images)).state.approval_status = .str "error"
          → q = 0))
  ∧ (∀ e t0, jget (errorResult e t0) "approval_status" = some (.str "error")
      ∧ jget (errorResult e t0) "confidence_score" = some (.num 0)) := by
  constructor
  · rw [workflowInvoke_last]
    exact final_review_c5 ts (oracle 10) _ h
  · intro e t0
    exact ⟨rfl, rfl⟩

/-- C5 witness: the amended statement on a run whose final-review
response conforms ("approved", confidence 1). -/
theorem C5_witness :
    ∃ q : Rat, (workflowInvoke ts0 goodOracle (initSys ["img"])).state.confidence_score
        = .num q
      ∧ 0 ≤ q ∧ q ≤ 1
      ∧ ((workflowInvoke ts0 goodOracle (initSys ["img"])).state.approval_status
          = .str "error" → q = 0) :=
  (C5_confidence_bounds ts0 goodOracle ["img"]
    ⟨[("approval_status", .str "approved"), ("confidence_score", .num 1)], rfl,
      Or.inl rfl, 1, rfl, by norm_num, by norm_num⟩).1

/-- An engine-response sequence whose final-review response reports an
out-of-range confidence together with status "error". -/
def oracleC5 : Nat → Except String Json := fun i =>
  if i = 10 then .ok (.obj [("approval_status", .str "error"), ("confidence_score", .num 2)])
  else goodOracle i

/-- C5 counterexample: stage 11 copies the engine's `approval_status` and
`confidence_score` into the state without validation, so a response
claiming status "error" with confidence 2 yields a final state violating
both the [0,1] bound and the "error implies 0.0" rule. -/
theorem C5_counterexample :
    (workflowInvoke ts0 oracleC5 (initSys ["img"])).state.approval_status = .str "error"
  ∧ (workflowInvoke ts0 oracleC5 (initSys ["img"])).state.confidence_score = .num 2
  ∧ ¬ ((2 : Rat) ≤ 1) ∧ (2 : Rat) ≠ 0 := by
  refine ⟨rfl, rfl, by norm_num, by norm_num⟩

theorem stateToJson_keys (st : RxState) :
    jHasKey (stateToJson st) "approval_status" = true
  ∧ jHasKey (stateToJson st) "confidence_score" = true
  ∧ jHasKey (stateToJson st) "alerts" = true
  ∧ jHasKey (stateToJson st) "audit_trail" = true :=
  ⟨rfl, rfl, rfl, rfl⟩

theorem errorResult_keys (e t0 : String) :
    jHasKey (errorResult e t0) "approval_status" = true
  ∧ jHasKey (errorResult e t0) "confidence_score" = true
  ∧ jHasKey (errorResult e t0) "alerts" = true
  ∧ jHasKey (errorResult e t0) "audit_trail" = true :=
  ⟨rfl, rfl, rfl, rfl⟩

theorem main_shape (ts : Nat → String) (oracle : Nat → Except String Json) (doc : InputDoc) :
    (∃ st, main' ts oracle doc = stateToJson st)
  ∨ (∃ m, main' ts oracle doc = errorResult m (ts 0)) := by
  unfold main' processImages
  dsimp only
  split
  · cases hp : doc.pages with
    | nil => exact Or.inr ⟨_, rfl⟩
    | cons a l => exact Or.inl ⟨_, rfl⟩
  · split
    · exact Or.inl ⟨_, rfl⟩
    · exact Or.inr ⟨_, rfl⟩

/-- C3: the entry point always returns a dict that contains
`approval_status`, `confidence_score`, `alerts` and `audit_trail`
(failures inside are caught, never re-raised); and on a failure before
the first stage runs — an unsupported file type, or a PDF that yields
zero page images — the result does not depend on the engine oracle (no
stage is consulted) and is the synthetic error state: status "error",
confidence 0, a single SYSTEM_ERROR alert, empty audit trail. -/
theorem C3_entry_contract (ts : Nat → String) (oracle oracle2 : Nat → Except String Json)
    (doc : InputDoc) :
    (jHasKey (main' ts oracle doc) "approval_status" = true
     ∧ jHasKey (main' ts oracle doc) "confidence_score" = true
     ∧ jHasKey (main' ts oracle doc) "alerts" = true
     ∧ jHasKey (main' ts oracle doc) "audit_trail" = true)
  ∧ (((pyLowerStr doc.ext ≠ ".pdf" ∧ pyLowerStr doc.ext ≠ ".png"
        ∧ pyLowerStr doc.ext ≠ ".jpg" ∧ pyLowerStr doc.ext ≠ ".jpeg")
      ∨ (pyLowerStr doc.ext = ".pdf" ∧ doc.pages = [])) →
      main' ts oracle doc = main' ts oracle2 doc
      ∧ (∃ m, m ≠ "" ∧ main' ts oracle doc = errorResult m (ts 0))
      ∧ jget (main' ts oracle doc) "approval_status" = some (.str "error")
      ∧ jget (main' ts oracle doc) "confidence_score" = some (.num 0)
      ∧ (∃ al, jget (main' ts oracle doc) "alerts" = some (.arr [al]))
      ∧ jget (main' ts oracle doc) "audit_trail" = some (.arr [])) := by
  constructor
  · obtain ⟨st, hst⟩ | ⟨m, hm⟩ := main_shape ts oracle doc
    · rw [hst]; exact stateToJson_keys st
    · rw [hm]; exact errorResult_keys m (ts 0)
  · rintro (⟨h1, h2, h3, h4⟩ | ⟨h1, h2⟩)
    · have he : ∀ (o : Nat → Except String Json), main' ts o doc =
          errorResult "Unsupported file type: only PDF and image files are supported."
            (ts 0) := by
        intro o
        unfold main'
        dsimp only
        rw [if_neg h1, if_neg (fun hc => hc.elim h2 (fun hc2 => hc2.elim h3 h4))]
      refine ⟨by rw [he oracle, he oracle2], ⟨_, by decide, he oracle⟩, ?_, ?_, ?_, ?_⟩
      · rw [he oracle]; rfl
      · rw [he oracle]; rfl
      · rw [he oracle]; exact ⟨_, rfl⟩
      · rw [he oracle]; rfl
    · have he : ∀ (o : Nat → Except String Json), main' ts o doc =
          errorResult "list index out of range" (ts 0) := by
        intro o
        unfold main' processImages
        dsimp only
        rw [if_pos h1, h2]
      refine ⟨by rw [he oracle, he oracle2], ⟨_, by decide, he oracle⟩, ?_, ?_, ?_, ?_⟩
      · rw [he oracle]; rfl
      · rw [he oracle]; rfl
      · rw [he oracle]; exact ⟨_, rfl⟩
      · rw [he oracle]; rfl

/-- A text file: an extension `main` rejects before acquiring images. -/
def docTxt : InputDoc := { ext := ".txt", pages := [], raw := "" }

/-- C3 witness: on a `.txt` input the keys are present and the result is
oracle-independent. -/
theorem C3_witness :
    jHasKey (main' ts0 goodOracle docTxt) "approval_status" = true
  ∧ main' ts0 goodOracle docTxt = main' ts0 badOracle docTxt :=
  ⟨(C3_entry_contract ts0 goodOracle badOracle docTxt).1.1,
   ((C3_entry_contract ts0 goodOracle badOracle docTxt).2
      (Or.inl ⟨by decide, by decide, by decide, by decide⟩)).1⟩
